import Mathlib

/-!
Verification development for the tweakcn theme-token pipeline.

This file shallowly embeds the pure core of the repository:
`colorFormatter` and `getContrastRatio` (src/utils/color-converter.ts),
`getShadowMap` (src/utils/shadows.ts), the default theme and preset catalog
(src/config/theme.ts, src/utils/theme-presets.ts), the editor store
operations (src/store/editor-store.ts), the per-token edit
(`updateStyle` in the theme control panel), the stylesheet generator
(`generateThemeCode` in src/utils/theme-style-generator.ts) and the CSS
importer (`parseCssInput` in src/utils/parse-css-input.ts).

JavaScript numbers are modelled as rationals (`ℚ`); JavaScript strings as
Lean `String` / `List Char`; `undefined` string-typed values as `Option`.
The third-party color library (culori) is not part of the repository; its
parsing, conversions and WCAG luminance are modelled from its documented
behaviour and the spec's contracts (§4.1, §4.2), see the doc comments on
`parseColor`, `wcagLuminance` and friends.
-/

set_option autoImplicit false

namespace Tweakcn

/-! ## JavaScript numeric primitives -/

/-- `Math.round x` in JavaScript: half-up toward `+∞`, i.e. `⌊x + 1/2⌋`. -/
def jsMathRound (x : ℚ) : ℤ := ⌊x + 1/2⌋

/-- Rounding used by `Number.prototype.toFixed`: half away from zero. -/
def jsRoundHalfAway (x : ℚ) : ℤ :=
  if 0 ≤ x then ⌊x + 1/2⌋ else -⌊(-x) + 1/2⌋

/-- Decimal digits of a natural number (`Nat.repr`, used by `toString`). -/
def natToString (n : ℕ) : String := Nat.repr n

/-- `toString` of an integer as JavaScript prints integral numbers. -/
def intToString (i : ℤ) : String :=
  if i < 0 then "-" ++ natToString i.natAbs else natToString i.natAbs

/-- Left-pad to two digits (for the fractional part of `toFixed(2)`). -/
def pad2 (n : ℕ) : String :=
  if n < 10 then "0" ++ natToString n else natToString n

/-- `x.toFixed(2)` for a (finite) JavaScript number modelled as a rational:
round `100·x` half away from zero and print with exactly two decimals. -/
def toFixed2 (x : ℚ) : String :=
  let n : ℤ := jsRoundHalfAway (x * 100)
  (if n < 0 then "-" else "") ++ natToString (n.natAbs / 100) ++ "." ++ pad2 (n.natAbs % 100)

/-- `x.toFixed(2)` where `x` may be NaN (`none`): `NaN.toFixed(2) = "NaN"`. -/
def toFixed2Opt (x : Option ℚ) : String :=
  match x with
  | none => "NaN"
  | some q => toFixed2 q

/-- Smallest number of decimal digits (up to 30) that writes `q` exactly. -/
def decDigits (q : ℚ) : Option ℕ :=
  (List.range 31).find? (fun k => (q * (10 : ℚ) ^ k).den = 1)

/-- `Number.prototype.toString` for the rationals produced in this pipeline.
JavaScript prints the shortest decimal expansion that round-trips the float;
every number reaching this function in the embedded code is obtained from a
decimal literal by subtraction of 1, so it has an exact short decimal
expansion, which is printed here.  Rationals with no decimal expansion of at
most 30 digits (unreachable from the embedded code) fall back to a

fraction rendering. -/
def jsNumToString (q : ℚ) : String :=
  match decDigits q with
  | some 0 => intToString q.num
  | some (k + 1) =>
      let n : ℤ := (q * (10 : ℚ) ^ (k + 1)).num
      let m : ℕ := n.natAbs
      (if n < 0 then "-" else "") ++
        natToString (m / 10 ^ (k + 1)) ++ "." ++
        (let frac := natToString (m % 10 ^ (k + 1));
         String.mk (List.replicate (k + 1 - frac.length) '0') ++ frac)
  | none => intToString q.num ++ "/" ++ natToString q.den

/-- `toString` lifted to possibly-NaN numbers: `String(NaN) = "NaN"`. -/
def jsNumToStringOpt (x : Option ℚ) : String :=
  match x with
  | none => "NaN"
  | some q => jsNumToString q

/-! ## JavaScript string primitives (over `List Char`) -/

/-- The whitespace class used by JavaScript's `\s`, `trim` and `parseFloat`
(restricted to the ASCII whitespace appearing in this pipeline). -/
def isJsWs (c : Char) : Bool :=
  c = ' ' ∨ c = '\t' ∨ c = '\n' ∨ c = '\r' ∨ c = '\x0b' ∨ c = '\x0c'

/-- ASCII decimal digit test (`/\d/`). -/
def isDigit (c : Char) : Bool := 48 ≤ c.toNat ∧ c.toNat ≤ 57

/-- Value of an ASCII decimal digit. -/
def digitVal (c : Char) : ℕ := c.toNat - 48

/-- Value of the digit list `ds` read in base 10 (most significant first). -/
def digitsVal (ds : List Char) : ℕ :=
  ds.foldl (fun acc c => 10 * acc + digitVal c) 0

/-- `String.prototype.trim`. -/
def jsTrim (l : List Char) : List Char :=
  ((l.dropWhile isJsWs).reverse.dropWhile isJsWs).reverse

/-- `parseFloat` on a list of characters: skip leading whitespace, then read
the longest prefix of the form `[+-]? digits [. digits] [eE [+-] digits]`
(at least one mantissa digit); `none` models `NaN`.  `Infinity` literals do
not occur in this pipeline and are not modelled. -/
def jsParseFloatAux (l : List Char) : Option ℚ :=
  let l := l.dropWhile isJsWs
  let (sgn, l) :=
    match l with
    | '-' :: r => ((-1 : ℚ), r)
    | '+' :: r => ((1 : ℚ), r)
    | _ => ((1 : ℚ), l)
  let ip := l.takeWhile isDigit
  let l := l.drop ip.length
  let (fp, l) :=
    match l with
    | '.' :: r => (r.takeWhile isDigit, r.drop (r.takeWhile isDigit).length)
    | _ => ([], l)
  if ip.isEmpty ∧ fp.isEmpty then none
  else
    let mant : ℚ := (digitsVal ip : ℚ) + (digitsVal fp : ℚ) / (10 : ℚ) ^ fp.length
    let expo : ℤ :=
      match l with
      | 'e' :: r | 'E' :: r =>
          let (es, r') :=
            match r with
            | '-' :: r' => ((-1 : ℤ), r')
            | '+' :: r' => ((1 : ℤ), r')
            | _ => ((1 : ℤ), r)
          let ed := r'.takeWhile isDigit
          if ed.isEmpty then 0 else es * (digitsVal ed : ℤ)
      | _ => 0
    some (sgn * mant * (10 : ℚ) ^ expo)

/-- `parseFloat` on a `String`. -/
def jsParseFloat (s : String) : Option ℚ := jsParseFloatAux s.data

/-- Replace the first occurrence of `pat` in `l` by `repl`
(`String.prototype.replace` with a string pattern replaces only the first
occurrence). -/
def jsReplaceFirstAux (pat repl : List Char) : List Char → List Char
  | [] => []
  | c :: rest =>
      if pat.isPrefixOf (c :: rest) then repl ++ (c :: rest).drop pat.length
      else c :: jsReplaceFirstAux pat repl rest

/-- `s.replace(pat, repl)` (first occurrence only). -/
def jsReplaceFirst (s pat repl : String) : String :=
  String.mk (jsReplaceFirstAux pat.data repl.data s.data)

/-! ## Rational stand-ins for the transcendental math delegated to culori

The repository delegates all color math to the third-party library culori,
which computes with IEEE doubles (`Math.pow`, `Math.cbrt`, `Math.sqrt`,
`Math.atan2`).  Those functions are irrational-valued; we model them by
explicit computable rational approximations.  The approximations are exact
at every point at which a claim of this development evaluates them
(`nthRootApprox pw n 1 = 1`, `nthRootApprox pw n 0⁻ = tiny`), and they land
in `[0, max 1 a]`, which is all that the universally-quantified claims
need. -/

/-- Binary search bracketing of the `pw`-th root of `a ≥ 0` on
`[0, max 1 a]`, returning the upper end after `n` bisection steps. -/
def nthRootAux (pw : ℕ) : ℕ → ℚ → ℚ → ℚ → ℚ
  | 0, _, _, hi => hi
  | n + 1, a, lo, hi =>
      let m := (lo + hi) / 2
      if m ^ pw ≤ a then nthRootAux pw n a m hi else nthRootAux pw n a lo m

/-- Approximate `pw`-th root (upper bracket; exact at `a = 1`). -/
def nthRootApprox (pw n : ℕ) (a : ℚ) : ℚ := nthRootAux pw n a 0 (max 1 a)

/-- Rational approximation of `t ^ 2.4 = (t¹²)^(1/5)` (the sRGB transfer
exponent used by culori's `lrgb` conversion); exact at `t = 1`. -/
def pow24 (t : ℚ) : ℚ := nthRootApprox 5 32 (t ^ 12)

/-- sRGB channel linearization used by culori's `lrgb` converter (and hence
by `wcagLuminance`): `c ≤ 0.04045 ? c / 12.92 : ((c + 0.055)/1.055)^2.4`.
Channels are already in `[0, 1]` here (see `parseColor`), so the
`Math.abs`/`Math.sign` guards of the original are identities. -/
def srgbLin (c : ℚ) : ℚ :=
  if c ≤ 0.04045 then c / 12.92 else pow24 ((c + 0.055) / 1.055)

/-- Rational approximation of `3.141592653589793` (only used by the oklch
hue approximation, whose values no claim depends on). -/
def piQ : ℚ := 3.141592653589793

/-- Taylor approximation of `arctan` in degrees for `|t| ≤ 1`. -/
def atanDegQ (t : ℚ) : ℚ :=
  (180 / piQ) * (t - t ^ 3 / 3 + t ^ 5 / 5 - t ^ 7 / 7 + t ^ 9 / 9 - t ^ 11 / 11 + t ^ 13 / 13)

/-- `arctan` in degrees on all of `ℚ` via the reflection identity. -/
def atanFullDegQ (t : ℚ) : ℚ :=
  if |t| ≤ 1 then atanDegQ t
  else if 0 < t then 90 - atanDegQ (1 / t) else -90 - atanDegQ (1 / t)

/-- `Math.atan2(y, x)` in degrees (rational approximation). -/
def atan2Deg (y x : ℚ) : ℚ :=
  if 0 < x then atanFullDegQ (y / x)
  else if x < 0 then
    (if 0 ≤ y then atanFullDegQ (y / x) + 180 else atanFullDegQ (y / x) - 180)
  else if 0 < y then 90 else if y < 0 then -90 else 0

/-- culori's `normalizeHue`: reduce a hue into `[0, 360)`. -/
def normalizeHue (h : ℚ) : ℚ := h - 360 * ⌊h / 360⌋

/-- Clamp a rational into `[0, 1]`. -/
def clamp01 (x : ℚ) : ℚ := max 0 (min 1 x)

/-! ## The culori color model

`culori.parse` is third-party code.  Modelled from the spec: §4.1 — the
converter "accepts any syntactically valid color literal in hex, `rgb(...)`,
`hsl(...)`, or `oklch(...)` notation (delegated parsing)" — and §4.2 — the
luminance contract `luminance(color) -> float in [0,1]`.  We model the hex,
`rgb(...)` and `hsl(...)` notations (the notations this repository's data
and tests exercise), keep the parsed mode as culori does (an `hsl(...)`
literal stays an hsl-mode color and is not round-tripped through rgb), and
clamp parsed channels into gamut so that the spec's luminance contract
holds; alpha components are parsed and discarded (no claim observes them).
A color the model does not parse is an unparseable literal. -/

/-- A parsed culori color: either rgb-mode (channels as fractions of 1) or
hsl-mode (hue in degrees, saturation/lightness as fractions of 1). -/
inductive JsColor where
  | rgb (r g b : ℚ)
  | hsl (h s l : ℚ)
deriving DecidableEq

/-- An hsl triple as produced by culori's hsl converter; the hue is
undefined (`none`) for achromatic colors. -/
structure HslOut where
  h : Option ℚ
  s : ℚ
  l : ℚ
deriving DecidableEq

/-- Hexadecimal digit test. -/
def isHexDigit (c : Char) : Bool :=
  isDigit c ∨ (97 ≤ c.toNat ∧ c.toNat ≤ 102) ∨ (65 ≤ c.toNat ∧ c.toNat ≤ 70)

/-- Value of a hexadecimal digit. -/
def hexVal (c : Char) : ℕ :=
  if isDigit c then digitVal c
  else if 97 ≤ c.toNat ∧ c.toNat ≤ 102 then c.toNat - 97 + 10
  else c.toNat - 65 + 10

/-- Parse the digit part of a `#...` hex literal (3, 4, 6 or 8 digits;
alpha digits discarded). -/
def parseHexDigits (ds : List Char) : Option JsColor :=
  if ds.all isHexDigit then
    match ds with
    | [r, g, b] =>
        some (.rgb ((17 * hexVal r : ℚ) / 255) ((17 * hexVal g : ℚ) / 255) ((17 * hexVal b : ℚ) / 255))
    | [r, g, b, _a] =>
        some (.rgb ((17 * hexVal r : ℚ) / 255) ((17 * hexVal g : ℚ) / 255) ((17 * hexVal b : ℚ) / 255))
    | [r1, r2, g1, g2, b1, b2] =>
        some (.rgb ((16 * hexVal r1 + hexVal r2 : ℚ) / 255)
          ((16 * hexVal g1 + hexVal g2 : ℚ) / 255) ((16 * hexVal b1 + hexVal b2 : ℚ) / 255))
    | [r1, r2, g1, g2, b1, b2, _a1, _a2] =>
        some (.rgb ((16 * hexVal r1 + hexVal r2 : ℚ) / 255)
          ((16 * hexVal g1 + hexVal g2 : ℚ) / 255) ((16 * hexVal b1 + hexVal b2 : ℚ) / 255))
    | _ => none
  else none

/-- Read a number `[+-]?(\d+(\.\d*)?|\.\d+)([eE][+-]?\d+)?` occupying the
whole character list. -/
def numTok (l : List Char) : Option ℚ :=
  let (sgn, l) :=
    match l with
    | '-' :: r => ((-1 : ℚ), r)
    | '+' :: r => ((1 : ℚ), r)
    | _ => ((1 : ℚ), l)
  let ip := l.takeWhile isDigit
  let l := l.drop ip.length
  let (fp, l) :=
    match l with
    | '.' :: r => (r.takeWhile isDigit, r.drop (r.takeWhile isDigit).length)
    | _ => ([], l)
  if ip.isEmpty ∧ fp.isEmpty then none
  else
    let mant : ℚ := (digitsVal ip : ℚ) + (digitsVal fp : ℚ) / (10 : ℚ) ^ fp.length
    match l with
    | [] => some (sgn * mant)
    | 'e' :: r | 'E' :: r =>
        let (es, r') :=
          match r with
          | '-' :: r' => ((-1 : ℤ), r')
          | '+' :: r' => ((1 : ℤ), r')
          | _ => ((1 : ℤ), r)
        if r'.isEmpty ∨ ¬ r'.all isDigit then none
        else some (sgn * mant * (10 : ℚ) ^ (es * (digitsVal r' : ℤ)))
    | _ => none

/-- Read a percentage token `<number>%`. -/
def pctTok (l : List Char) : Option ℚ :=
  match l.reverse with
  | '%' :: rest => numTok rest.reverse
  | _ => none

/-- Split a `rgb(...)`/`hsl(...)` argument list on whitespace and commas. -/
def splitArgsAux : List Char → List (List Char) → List (List Char)
  | [], acc => acc.reverse
  | c :: rest, acc =>
      if isJsWs c ∨ c = ',' then splitArgsAux rest ([] :: acc)
      else match acc with
        | t :: acc' => splitArgsAux rest ((t ++ [c]) :: acc')
        | [] => splitArgsAux rest [[c]]

/-- Argument tokens of a functional color notation, with the `/ alpha`
tail (if any) removed. -/
def splitArgs (l : List Char) : List (List Char) :=
  ((splitArgsAux l [[]]).filter (fun t => ¬ t.isEmpty)).takeWhile (fun t => t ≠ ['/'])

/-- The content between a functional prefix (e.g. `hsl(`) and a closing
`)`, when `l` has exactly that shape. -/
def stripCall (pre : List Char) (l : List Char) : Option (List Char) :=
  if pre.isPrefixOf l then
    match (l.drop pre.length).reverse with
    | ')' :: inner => some inner.reverse
    | _ => none
  else none

/-- Parse the arguments of `hsl(...)`/`hsla(...)`: hue number, then
saturation and lightness percentages, optional alpha discarded.
Saturation and lightness are clamped into `[0,1]` (spec §4.2 contract). -/
def parseHslArgs (inner : List Char) : Option JsColor :=
  match splitArgs inner with
  | [ht, st, lt] | [ht, st, lt, _] =>
      match numTok ht, pctTok st, pctTok lt with
      | some h, some s, some l => some (.hsl h (clamp01 (s / 100)) (clamp01 (l / 100)))
      | _, _, _ => none
  | _ => none

/-- A single `rgb(...)` channel: a number of 255ths or a percentage,
clamped into `[0,1]` (spec §4.2 contract). -/
def rgbChan (t : List Char) : Option ℚ :=
  match pctTok t with
  | some p => some (clamp01 (p / 100))
  | none => (numTok t).map (fun n => clamp01 (n / 255))

/-- Parse the arguments of `rgb(...)`/`rgba(...)`. -/
def parseRgbArgs (inner : List Char) : Option JsColor :=
  match splitArgs inner with
  | [rt, gt, bt] | [rt, gt, bt, _] =>
      match rgbChan rt, rgbChan gt, rgbChan bt with
      | some r, some g, some b => some (.rgb r g b)
      | _, _, _ => none
  | _ => none

/-- Model of `culori.parse` (see the section comment above). -/
def parseColor (s : String) : Option JsColor :=
  match s.data with
  | '#' :: ds => parseHexDigits ds
  | l =>
      match stripCall ("hsla(".data) l with
      | some inner => parseHslArgs inner
      | none =>
        match stripCall ("hsl(".data) l with
        | some inner => parseHslArgs inner
        | none =>
          match stripCall ("rgba(".data) l with
          | some inner => parseRgbArgs inner
          | none =>
            match stripCall ("rgb(".data) l with
            | some inner => parseRgbArgs inner
            | none => none

/-- culori `convertHslToRgb` (sector form of the CSS algorithm), for
hsl-mode colors with `s, l ∈ [0,1]`. -/
def hslToRgb (h s l : ℚ) : ℚ × ℚ × ℚ :=
  let hn := normalizeHue h
  let c := (1 - |2 * l - 1|) * s
  let hp := hn / 60
  let x := c * (1 - |hp - 2 * ⌊hp / 2⌋ - 1|)
  let base : ℚ × ℚ × ℚ :=
    if hp < 1 then (c, x, 0)
    else if hp < 2 then (x, c, 0)
    else if hp < 3 then (0, c, x)
    else if hp < 4 then (0, x, c)
    else if hp < 5 then (x, 0, c)
    else (c, 0, x)
  let m := l - c / 2
  (base.1 + m, base.2.1 + m, base.2.2 + m)

/-- The rgb channels of a culori color (culori converts to rgb on demand
when formatting or computing luminance). -/
def toRgbChannels (c : JsColor) : ℚ × ℚ × ℚ :=
  match c with
  | .rgb r g b => (r, g, b)
  | .hsl h s l => hslToRgb h s l

/-- culori `convertRgbToHsl` on rgb channels. -/
def rgbToHsl (r g b : ℚ) : HslOut :=
  let M := max r (max g b)
  let m := min r (min g b)
  let l := (M + m) / 2
  let s : ℚ := if M = m then 0 else (M - m) / (1 - |M + m - 1|)
  let h : Option ℚ :=
    if M = m then none
    else if M = r then some (60 * ((g - b) / (M - m) + (if g < b then 6 else 0)))
    else if M = g then some (60 * ((b - r) / (M - m) + 2))
    else some (60 * ((r - g) / (M - m) + 4))
  ⟨h, s, l⟩

/-- `culori.converter("hsl")`: an hsl-mode color is returned as is, an
rgb-mode color is converted. -/
def toHsl (c : JsColor) : HslOut :=
  match c with
  | .hsl h s l => ⟨some h, s, l⟩
  | .rgb r g b => rgbToHsl r g b

/-- A channel as an integer in `0..255` (culori clamps and
`Math.round`s when serializing). -/
def chanByte (c : ℚ) : ℕ := (max 0 (min 255 (jsMathRound (255 * c)))).toNat

/-- Lowercase hexadecimal digit. -/
def hexDigitChar (d : ℕ) : Char :=
  if d < 10 then Char.ofNat ('0'.toNat + d) else Char.ofNat ('a'.toNat + d - 10)

/-- Two lowercase hexadecimal digits of a byte. -/
def hex2 (n : ℕ) : String :=
  String.mk [hexDigitChar (n / 16), hexDigitChar (n % 16)]

/-- `culori.formatHex`. -/
def formatHex (c : JsColor) : String :=
  let (r, g, b) := toRgbChannels c
  "#" ++ hex2 (chanByte r) ++ hex2 (chanByte g) ++ hex2 (chanByte b)

/-- `culori.formatRgb` (alpha is discarded at parse time, so the
`rgba(...)` serialization path never triggers in the model). -/
def formatRgb (c : JsColor) : String :=
  let (r, g, b) := toRgbChannels c
  "rgb(" ++ natToString (chanByte r) ++ ", " ++ natToString (chanByte g) ++ ", " ++
    natToString (chanByte b) ++ ")"

/-- An oklch triple; hue undefined for achromatic colors. -/
structure OklchOut where
  l : ℚ
  c : ℚ
  h : Option ℚ

/-- culori `convertRgbToOklab` composed with `convertLabToLch`
(cube roots, the square root and `atan2` via the rational approximations
above; no claim depends on oklch numeric values). -/
def toOklch (col : JsColor) : OklchOut :=
  let (r, g, b) := toRgbChannels col
  let (lr, lg, lb) := (srgbLin r, srgbLin g, srgbLin b)
  let l0 := 0.4122214708 * lr + 0.5363325363 * lg + 0.0514459929 * lb
  let m0 := 0.2119034982 * lr + 0.6806995451 * lg + 0.1073969566 * lb
  let s0 := 0.0883024619 * lr + 0.2817188376 * lg + 0.6299787005 * lb
  let l1 := nthRootApprox 3 32 l0
  let m1 := nthRootApprox 3 32 m0
  let s1 := nthRootApprox 3 32 s0
  let ll := 0.2104542553 * l1 + 0.7936177850 * m1 - 0.0040720468 * s1
  let aa := 1.9779984951 * l1 - 2.4285922050 * m1 + 0.4505937099 * s1
  let bb := 0.0259040371 * l1 + 0.7827717662 * m1 - 0.8086757660 * s1
  { l := ll
    c := nthRootApprox 2 32 (aa ^ 2 + bb ^ 2)
    h := if aa = 0 ∧ bb = 0 then none else some (normalizeHue (atan2Deg bb aa)) }

/-! ## src/utils/color-converter.ts -/

/-- The `ColorFormat` union type (src/types). -/
inductive ColorFormat where
  | hsl | rgb | oklch | hex
deriving DecidableEq

/-- `formatNumber` (src/utils/color-converter.ts): `"0"` for a missing or
zero component (`!num` is true for `undefined`, `NaN` and `0`), the plain
integer when integral, otherwise fixed to two decimals. -/
def formatNumber (num : Option ℚ) : String :=
  match num with
  | none => "0"
  | some q =>
      if q = 0 then "0"
      else if q.den = 1 then intToString q.num
      else toFixed2 q

/-- `colorFormatter` (src/utils/color-converter.ts).  The `try/catch`
around the body only catches the parse failure (`throw new Error` when
`culori.parse` yields a falsy value); the conversion branches do not throw,
so the model returns the input exactly when parsing fails. -/
def colorFormatter (colorValue : String) (format : ColorFormat := .hsl)
    (tailwindVersion : String := "3") : String :=
  match parseColor colorValue with
  | none => colorValue
  | some color =>
      match format with
      | .hsl =>
          let hsl := toHsl color
          if tailwindVersion = "4" then
            "hsl(" ++ (formatNumber hsl.h ++ " " ++ formatNumber (some (hsl.s * 100)) ++ "% " ++
              formatNumber (some (hsl.l * 100)) ++ "%") ++ ")"
          else
            formatNumber hsl.h ++ " " ++ formatNumber (some (hsl.s * 100)) ++ "% " ++
              formatNumber (some (hsl.l * 100)) ++ "%"
      | .rgb => formatRgb color
      | .oklch =>
          let ok := toOklch color
          "oklch(" ++ formatNumber (some ok.l) ++ " " ++ formatNumber (some ok.c) ++ " " ++
            formatNumber ok.h ++ ")"
      | .hex => formatHex color

/-- `convertToHSL` (src/utils/color-converter.ts). -/
def convertToHSL (colorValue : String) : String := colorFormatter colorValue .hsl

/-- `getLuminance` (src/utils/color-converter.ts): WCAG relative luminance
via culori's `wcagLuminance`; `0` for unparseable input. -/
def getLuminance (colorValue : String) : ℚ :=
  match parseColor colorValue with
  | none => 0
  | some c =>
      let (r, g, b) := toRgbChannels c
      0.2126 * srgbLin r + 0.7152 * srgbLin g + 0.0722 * srgbLin b

/-- `getContrastRatio` (src/utils/color-converter.ts).  Nothing in the
`try` block can throw (luminance recovers internally), so the `"1.00"`
catch fallback is dead code in the model (spec §9 flags its dual use). -/
def getContrastRatio (color1 color2 : String) : String :=
  let lum1 := getLuminance color1
  let lum2 := getLuminance color2
  toFixed2 ((max lum1 lum2 + 0.05) / (min lum1 lum2 + 0.05))

/-- The claim-side contrast-ratio formula of C9 (spec §4.2):
`(max(L1,L2) + 0.05) / (min(L1,L2) + 0.05)` over the WCAG luminances. -/
def contrastRatioValue (color1 color2 : String) : ℚ :=
  (max (getLuminance color1) (getLuminance color2) + 0.05) /
    (min (getLuminance color1) (getLuminance color2) + 0.05)

/-! ## JavaScript objects of string values

Theme token sets are JavaScript objects with string values, modelled as
association lists in key-insertion order.  `jsGet` is property access,
`jsMerge a b` is the object spread `{...a, ...b}` (b wins, a's key order is
preserved, b's new keys are appended), `jsSet o k v` is `{...o, [k]: v}`. -/

/-- A theme token set: a JavaScript object of string values. -/
abbrev TokenSet := List (String × String)

/-- Property access: `o[k]`, `undefined` as `none`. -/
def jsGet (o : TokenSet) (k : String) : Option String :=
  (o.find? (fun p => p.1 == k)).map (fun p => p.2)

/-- Property access where the result is interpolated into a template
literal: a missing property renders as `"undefined"`. -/
def jsGetStr (o : TokenSet) (k : String) : String :=
  (jsGet o k).getD "undefined"

/-- Object spread `{...a, ...b}`. -/
def jsMerge (a b : TokenSet) : TokenSet :=
  a.map (fun p => match jsGet b p.1 with | some v => (p.1, v) | none => p) ++
    b.filter (fun p => (jsGet a p.1).isNone)

/-- Computed-key update `{...o, [k]: v}`. -/
def jsSet (o : TokenSet) (k v : String) : TokenSet := jsMerge o [(k, v)]

/-! ## src/config/theme.ts -/

/-- `COMMON_STYLES` (src/config/theme.ts): the token keys shared between
the light and dark modes. -/
def COMMON_STYLES : List String :=
  ["font-sans", "font-serif", "font-mono", "radius", "shadow-opacity", "shadow-blur",
   "shadow-spread", "shadow-offset-x", "shadow-offset-y", "letter-spacing", "spacing"]

/-- `defaultLightThemeStyles` (src/config/theme.ts), in source order. -/
def defaultLightThemeStyles : TokenSet := [
  ("background", "hsl(0 0% 100%)"),
  ("foreground", "hsl(0 0% 14.5%)"),
  ("card", "hsl(0 0% 100%)"),
  ("card-foreground", "hsl(0 0% 14.5%)"),
  ("popover", "hsl(0 0% 100%)"),
  ("popover-foreground", "hsl(0 0% 14.5%)"),
  ("primary", "hsl(0 0% 20.5%)"),
  ("primary-foreground", "hsl(0 0% 98.5%)"),
  ("secondary", "hsl(0 0% 97%)"),
  ("secondary-foreground", "hsl(0 0% 20.5%)"),
  ("muted", "hsl(0 0% 97%)"),
  ("muted-foreground", "hsl(0 0% 55.6%)"),
  ("accent", "hsl(0 0% 97%)"),
  ("accent-foreground", "hsl(0 0% 20.5%)"),
  ("destructive", "hsl(0 80% 57.7%)"),
  ("destructive-foreground", "hsl(0 0% 100%)"),
  ("border", "hsl(0 0% 92.2%)"),
  ("input", "hsl(0 0% 92.2%)"),
  ("ring", "hsl(0 0% 70.8%)"),
  ("chart-1", "hsl(41 78% 64.6%)"),
  ("chart-2", "hsl(185 68% 60%)"),
  ("chart-3", "hsl(227 65% 39.8%)"),
  ("chart-4", "hsl(84 63% 82.8%)"),
  ("chart-5", "hsl(70 68% 76.9%)"),
  ("radius", "0.625rem"),
  ("sidebar", "hsl(0 0% 98.5%)"),
  ("sidebar-foreground", "hsl(0 0% 14.5%)"),
  ("sidebar-primary", "hsl(0 0% 20.5%)"),
  ("sidebar-primary-foreground", "hsl(0 0% 98.5%)"),
  ("sidebar-accent", "hsl(0 0% 97%)"),
  ("sidebar-accent-foreground", "hsl(0 0% 20.5%)"),
  ("sidebar-border", "hsl(0 0% 92.2%)"),
  ("sidebar-ring", "hsl(0 0% 70.8%)"),
  ("font-sans", "ui-sans-serif, system-ui, -apple-system, BlinkMacSystemFont, 'Segoe UI', Roboto, 'Helvetica Neue', Arial, 'Noto Sans', sans-serif, 'Apple Color Emoji', 'Segoe UI Emoji', 'Segoe UI Symbol', 'Noto Color Emoji'"),
  ("font-serif", "ui-serif, Georgia, Cambria, \"Times New Roman\", Times, serif"),
  ("font-mono", "ui-monospace, SFMono-Regular, Menlo, Monaco, Consolas, \"Liberation Mono\", \"Courier New\", monospace"),
  ("shadow-color", "hsl(0 0% 0%)"),
  ("shadow-opacity", "0.1"),
  ("shadow-blur", "3px"),
  ("shadow-spread", "0px"),
  ("shadow-offset-x", "0"),
  ("shadow-offset-y", "1px"),
  ("letter-spacing", "0em"),
  ("spacing", "0.25rem")]

/-- The overrides applied on top of the light defaults in `defaultDarkThemeStyles` (src/config/theme.ts). -/
def defaultDarkOverrides : TokenSet := [
  ("background", "hsl(240 10% 3.9%)"),
  ("foreground", "hsl(0 0% 98%)"),
  ("card", "hsl(240 10% 3.9%)"),
  ("card-foreground", "hsl(0 0% 98%)"),
  ("popover", "hsl(240 10% 3.9%)"),
  ("popover-foreground", "hsl(0 0% 98%)"),
  ("primary", "hsl(0 0% 98%)"),
  ("primary-foreground", "hsl(240 5.9% 10%)"),
  ("secondary", "hsl(240 3.7% 15.9%)"),
  ("secondary-foreground", "hsl(0 0% 98%)"),
  ("muted", "hsl(240 3.7% 15.9%)"),
  ("muted-foreground", "hsl(240 5% 64.9%)"),
  ("accent", "hsl(240 3.7% 15.9%)"),
  ("accent-foreground", "hsl(0 0% 98%)"),
  ("destructive", "hsl(0 62.8% 30.6%)"),
  ("destructive-foreground", "hsl(0 85.7% 97.3%)"),
  ("border", "hsl(240 3.7% 15.9%)"),
  ("input", "hsl(240 3.7% 15.9%)"),
  ("ring", "hsl(240 4.9% 83.9%)"),
  ("chart-1", "hsl(220 70% 50%)"),
  ("chart-2", "hsl(160 60% 45%)"),
  ("chart-3", "hsl(30 80% 55%)"),
  ("chart-4", "hsl(280 65% 60%)"),
  ("chart-5", "hsl(340 75% 55%)"),
  ("radius", "0.625rem"),
  ("sidebar", "hsl(240 5.9% 10%)"),
  ("sidebar-foreground", "hsl(240 4.8% 95.9%)"),
  ("sidebar-primary", "hsl(224.3 76.3% 48%)"),
  ("sidebar-primary-foreground", "hsl(0 0% 100%)"),
  ("sidebar-accent", "hsl(240 3.7% 15.9%)"),
  ("sidebar-accent-foreground", "hsl(240 4.8% 95.9%)"),
  ("sidebar-border", "hsl(240 3.7% 15.9%)"),
  ("sidebar-ring", "hsl(240 4.9% 83.9%)"),
  ("shadow-color", "hsl(0 0% 0%)"),
  ("letter-spacing", "0em"),
  ("spacing", "0.25rem")]

/-- `ThemePreset.styles` (src/types/theme.ts): the two optional partial
token sets of a catalog entry (`label`/`createdAt` carry no pipeline
semantics and are omitted). -/
structure ThemePreset where
  light : Option TokenSet := none
  dark : Option TokenSet := none

/-- Catalog entry `modern-minimal` (src/utils/theme-presets.ts). -/
def preset_modern_minimal : ThemePreset where
  light := some [
    ("background", "#ffffff"),
    ("foreground", "#333333"),
    ("card", "#ffffff"),
    ("card-foreground", "#333333"),
    ("popover", "#ffffff"),
    ("popover-foreground", "#333333"),
    ("primary", "#3b82f6"),
    ("primary-foreground", "#ffffff"),
    ("secondary", "#f3f4f6"),
    ("secondary-foreground", "#4b5563"),
    ("muted", "#f9fafb"),
    ("muted-foreground", "#6b7280"),
    ("accent", "#e0f2fe"),
    ("accent-foreground", "#1e3a8a"),
    ("destructive", "#ef4444"),
    ("destructive-foreground", "#ffffff"),
    ("border", "#e5e7eb"),
    ("input", "#e5e7eb"),
    ("ring", "#3b82f6"),
    ("chart-1", "#3b82f6"),
    ("chart-2", "#2563eb"),
    ("chart-3", "#1d4ed8"),
    ("chart-4", "#1e40af"),
    ("chart-5", "#1e3a8a"),
    ("radius", "0.375rem"),
    ("sidebar", "#f9fafb"),
    ("sidebar-foreground", "#333333"),
    ("sidebar-primary", "#3b82f6"),
    ("sidebar-primary-foreground", "#ffffff"),
    ("sidebar-accent", "#e0f2fe"),
    ("sidebar-accent-foreground", "#1e3a8a"),
    ("sidebar-border", "#e5e7eb"),
    ("sidebar-ring", "#3b82f6"),
    ("font-sans", "Inter, sans-serif"),
    ("font-serif", "Source Serif 4, serif"),
    ("font-mono", "JetBrains Mono, monospace")]
  dark := some [
    ("background", "#171717"),
    ("foreground", "#e5e5e5"),
    ("card", "#262626"),
    ("card-foreground", "#e5e5e5"),
    ("popover", "#262626"),
    ("popover-foreground", "#e5e5e5"),
    ("primary", "#3b82f6"),
    ("primary-foreground", "#ffffff"),
    ("secondary", "#262626"),
    ("secondary-foreground", "#e5e5e5"),
    ("muted", "#262626"),
    ("muted-foreground", "#a3a3a3"),
    ("accent", "#1e3a8a"),
    ("accent-foreground", "#bfdbfe"),
    ("destructive", "#ef4444"),
    ("destructive-foreground", "#ffffff"),
    ("border", "#404040"),
    ("input", "#404040"),
    ("ring", "#3b82f6"),
    ("chart-1", "#60a5fa"),
    ("chart-2", "#3b82f6"),
    ("chart-3", "#2563eb"),
    ("chart-4", "#1d4ed8"),
    ("chart-5", "#1e40af"),
    ("radius", "0.375rem"),
    ("sidebar", "#171717"),
    ("sidebar-foreground", "#e5e5e5"),
    ("sidebar-primary", "#3b82f6"),
    ("sidebar-primary-foreground", "#ffffff"),
    ("sidebar-accent", "#1e3a8a"),
    ("sidebar-accent-foreground", "#bfdbfe"),
    ("sidebar-border", "#404040"),
    ("sidebar-ring", "#3b82f6")]

/-- Catalog entry `t3-chat` (src/utils/theme-presets.ts). -/
def preset_t3_chat : ThemePreset where
  light := some [
    ("background", "#faf5fa"),
    ("foreground", "#501854"),
    ("card", "#faf5fa"),
    ("card-foreground", "#501854"),
    ("popover", "#ffffff"),
    ("popover-foreground", "#501854"),
    ("primary", "#a84370"),
    ("primary-foreground", "#ffffff"),
    ("secondary", "#f1c4e6"),
    ("secondary-foreground", "#77347c"),
    ("muted", "#f6e5f3"),
    ("muted-foreground", "#834588"),
    ("accent", "#f1c4e6"),
    ("accent-foreground", "#77347c"),
    ("destructive", "#ab4347"),
    ("destructive-foreground", "#ffffff"),
    ("border", "#efbdeb"),
    ("input", "#e7c1dc"),
    ("ring", "#db2777"),
    ("chart-1", "#d926a2"),
    ("chart-2", "#6c12b9"),
    ("chart-3", "#274754"),
    ("chart-4", "#e8c468"),
    ("chart-5", "#f4a462"),
    ("sidebar", "#f3e4f6"),
    ("sidebar-foreground", "#ac1668"),
    ("sidebar-primary", "#454554"),
    ("sidebar-primary-foreground", "#faf1f7"),
    ("sidebar-accent", "#f8f8f7"),
    ("sidebar-accent-foreground", "#454554"),
    ("sidebar-border", "#eceae9"),
    ("sidebar-ring", "#db2777"),
    ("radius", "0.5rem")]
  dark := some [
    ("background", "#221d27"),
    ("foreground", "#d2c4de"),
    ("card", "#2c2632"),
    ("card-foreground", "#dbc5d2"),
    ("popover", "#100a0e"),
    ("popover-foreground", "#f8f1f5"),
    ("primary", "#a3004c"),
    ("primary-foreground", "#efc0d8"),
    ("secondary", "#362d3d"),
    ("secondary-foreground", "#d4c7e1"),
    ("muted", "#28222d"),
    ("muted-foreground", "#c2b6cf"),
    ("accent", "#463753"),
    ("accent-foreground", "#f8f1f5"),
    ("destructive", "#301015"),
    ("destructive-foreground", "#ffffff"),
    ("border", "#3b3237"),
    ("input", "#3e343c"),
    ("ring", "#db2777"),
    ("chart-1", "#a84370"),
    ("chart-2", "#934dcb"),
    ("chart-3", "#e88c30"),
    ("chart-4", "#af57db"),
    ("chart-5", "#e23670"),
    ("sidebar", "#181117"),
    ("sidebar-foreground", "#e0cad6"),
    ("sidebar-primary", "#1d4ed8"),
    ("sidebar-primary-foreground", "#ffffff"),
    ("sidebar-accent", "#261922"),
    ("sidebar-accent-foreground", "#f4f4f5"),
    ("sidebar-border", "#000000"),
    ("sidebar-ring", "#db2777")]

/-- Catalog entry `bubblegum` (src/utils/theme-presets.ts). -/
def preset_bubblegum : ThemePreset where
  light := some [
    ("background", "#f6e6ee"),
    ("foreground", "#5b5b5b"),
    ("card", "#fdedc9"),
    ("card-foreground", "#5b5b5b"),
    ("popover", "#ffffff"),
    ("popover-foreground", "#5b5b5b"),
    ("primary", "#d04f99"),
    ("primary-foreground", "#ffffff"),
    ("secondary", "#8acfd1"),
    ("secondary-foreground", "#333333"),
    ("muted", "#b2e1eb"),
    ("muted-foreground", "#7a7a7a"),
    ("accent", "#fbe2a7"),
    ("accent-foreground", "#333333"),
    ("destructive", "#f96f70"),
    ("destructive-foreground", "#ffffff"),
    ("border", "#d04f99"),
    ("input", "#e4e4e4"),
    ("ring", "#e670ab"),
    ("chart-1", "#e670ab"),
    ("chart-2", "#84d2e2"),
    ("chart-3", "#fbe2a7"),
    ("chart-4", "#f3a0ca"),
    ("chart-5", "#d7488e"),
    ("sidebar", "#f8d8ea"),
    ("sidebar-foreground", "#333333"),
    ("sidebar-primary", "#ec4899"),
    ("sidebar-primary-foreground", "#ffffff"),
    ("sidebar-accent", "#f9a8d4"),
    ("sidebar-accent-foreground", "#333333"),
    ("sidebar-border", "#f3e8ff"),
    ("sidebar-ring", "#ec4899"),
    ("font-sans", "Poppins, sans-serif"),
    ("font-serif", "Lora, serif"),
    ("font-mono", "Fira Code, monospace"),
    ("radius", "0.4rem"),
    ("shadow-color", "hsl(325.78 58.18% 56.86% / 0.5)"),
    ("shadow-opacity", "1.0"),
    ("shadow-blur", "0px"),
    ("shadow-spread", "0px"),
    ("shadow-offset-x", "3px"),
    ("shadow-offset-y", "3px")]
  dark := some [
    ("background", "#12242e"),
    ("foreground", "#f3e3ea"),
    ("card", "#1c2e38"),
    ("card-foreground", "#f3e3ea"),
    ("popover", "#1c2e38"),
    ("popover-foreground", "#f3e3ea"),
    ("primary", "#fbe2a7"),
    ("primary-foreground", "#12242e"),
    ("secondary", "#e4a2b1"),
    ("secondary-foreground", "#12242e"),
    ("muted", "#24272b"),
    ("muted-foreground", "#e4a2b1"),
    ("accent", "#c67b96"),
    ("accent-foreground", "#f3e3ea"),
    ("destructive", "#e35ea4"),
    ("destructive-foreground", "#12242e"),
    ("border", "#324859"),
    ("input", "#20333d"),
    ("ring", "#50afb6"),
    ("chart-1", "#50afb6"),
    ("chart-2", "#e4a2b1"),
    ("chart-3", "#c67b96"),
    ("chart-4", "#175c6c"),
    ("chart-5", "#24272b"),
    ("sidebar", "#101f28"),
    ("sidebar-foreground", "#f3f4f6"),
    ("sidebar-primary", "#ec4899"),
    ("sidebar-primary-foreground", "#ffffff"),
    ("sidebar-accent", "#f9a8d4"),
    ("sidebar-accent-foreground", "#1f2937"),
    ("sidebar-border", "#374151"),
    ("sidebar-ring", "#ec4899"),
    ("font-sans", "Poppins, sans-serif"),
    ("font-serif", "Lora, serif"),
    ("font-mono", "Fira Code, monospace"),
    ("shadow-color", "#324859")]

/-- Catalog entry `catppuccin` (src/utils/theme-presets.ts). -/
def preset_catppuccin : ThemePreset where
  light := some [
    ("background", "#eff1f5"),
    ("foreground", "#4c4f69"),
    ("card", "#ffffff"),
    ("card-foreground", "#4c4f69"),
    ("popover", "#ccd0da"),
    ("popover-foreground", "#4c4f69"),
    ("primary", "#8839ef"),
    ("primary-foreground", "#ffffff"),
    ("secondary", "#ccd0da"),
    ("secondary-foreground", "#4c4f69"),
    ("muted", "#dce0e8"),
    ("muted-foreground", "#6c6f85"),
    ("accent", "#04a5e5"),
    ("accent-foreground", "#ffffff"),
    ("destructive", "#d20f39"),
    ("destructive-foreground", "#ffffff"),
    ("border", "#bcc0cc"),
    ("input", "#ccd0da"),
    ("ring", "#8839ef"),
    ("chart-1", "#8839ef"),
    ("chart-2", "#04a5e5"),
    ("chart-3", "#40a02b"),
    ("chart-4", "#fe640b"),
    ("chart-5", "#dc8a78"),
    ("sidebar", "#e6e9ef"),
    ("sidebar-foreground", "#4c4f69"),
    ("sidebar-primary", "#8839ef"),
    ("sidebar-primary-foreground", "#ffffff"),
    ("sidebar-accent", "#04a5e5"),
    ("sidebar-accent-foreground", "#ffffff"),
    ("sidebar-border", "#bcc0cc"),
    ("sidebar-ring", "#8839ef"),
    ("font-sans", "Montserrat, sans-serif"),
    ("font-serif", "Georgia, serif"),
    ("font-mono", "Fira Code, monospace"),
    ("radius", "0.35rem"),
    ("shadow-color", "hsl(240 30% 25%)"),
    ("shadow-opacity", "0.12"),
    ("shadow-blur", "6px"),
    ("shadow-spread", "0px"),
    ("shadow-offset-x", "0px"),
    ("shadow-offset-y", "4px")]
  dark := some [
    ("background", "#181825"),
    ("foreground", "#cdd6f4"),
    ("card", "#1e1e2e"),
    ("card-foreground", "#cdd6f4"),
    ("popover", "#45475a"),
    ("popover-foreground", "#cdd6f4"),
    ("primary", "#cba6f7"),
    ("primary-foreground", "#1e1e2e"),
    ("secondary", "#585b70"),
    ("secondary-foreground", "#cdd6f4"),
    ("muted", "#292c3c"),
    ("muted-foreground", "#a6adc8"),
    ("accent", "#89dceb"),
    ("accent-foreground", "#1e1e2e"),
    ("destructive", "#f38ba8"),
    ("destructive-foreground", "#1e1e2e"),
    ("border", "#313244"),
    ("input", "#313244"),
    ("ring", "#cba6f7"),
    ("chart-1", "#cba6f7"),
    ("chart-2", "#89dceb"),
    ("chart-3", "#a6e3a1"),
    ("chart-4", "#fab387"),
    ("chart-5", "#f5e0dc"),
    ("sidebar", "#11111b"),
    ("sidebar-foreground", "#cdd6f4"),
    ("sidebar-primary", "#cba6f7"),
    ("sidebar-primary-foreground", "#1e1e2e"),
    ("sidebar-accent", "#89dceb"),
    ("sidebar-accent-foreground", "#1e1e2e"),
    ("sidebar-border", "#45475a"),
    ("sidebar-ring", "#cba6f7")]

/-- Catalog entry `graphite` (src/utils/theme-presets.ts). -/
def preset_graphite : ThemePreset where
  light := some [
    ("background", "#f0f0f0"),
    ("foreground", "#333333"),
    ("card", "#f5f5f5"),
    ("card-foreground", "#333333"),
    ("popover", "#f5f5f5"),
    ("popover-foreground", "#333333"),
    ("primary", "#606060"),
    ("primary-foreground", "#ffffff"),
    ("secondary", "#e0e0e0"),
    ("secondary-foreground", "#333333"),
    ("muted", "#d9d9d9"),
    ("muted-foreground", "#666666"),
    ("accent", "#c0c0c0"),
    ("accent-foreground", "#333333"),
    ("destructive", "#cc3333"),
    ("destructive-foreground", "#ffffff"),
    ("border", "#d0d0d0"),
    ("input", "#e0e0e0"),
    ("ring", "#606060"),
    ("chart-1", "#606060"),
    ("chart-2", "#476666"),
    ("chart-3", "#909090"),
    ("chart-4", "#a8a8a8"),
    ("chart-5", "#c0c0c0"),
    ("sidebar", "#eaeaea"),
    ("sidebar-foreground", "#333333"),
    ("sidebar-primary", "#606060"),
    ("sidebar-primary-foreground", "#ffffff"),
    ("sidebar-accent", "#c0c0c0"),
    ("sidebar-accent-foreground", "#333333"),
    ("sidebar-border", "#d0d0d0"),
    ("sidebar-ring", "#606060"),
    ("font-sans", "Montserrat, sans-serif"),
    ("font-serif", "Georgia, serif"),
    ("font-mono", "Fira Code, monospace"),
    ("radius", "0.35rem"),
    ("shadow-color", "hsl(0 0% 20% / 0.1)"),
    ("shadow-opacity", "0.15"),
    ("shadow-blur", "0px"),
    ("shadow-spread", "0px"),
    ("shadow-offset-x", "0px"),
    ("shadow-offset-y", "2px")]
  dark := some [
    ("background", "#1a1a1a"),
    ("foreground", "#d9d9d9"),
    ("card", "#202020"),
    ("card-foreground", "#d9d9d9"),
    ("popover", "#202020"),
    ("popover-foreground", "#d9d9d9"),
    ("primary", "#a0a0a0"),
    ("primary-foreground", "#1a1a1a"),
    ("secondary", "#303030"),
    ("secondary-foreground", "#d9d9d9"),
    ("muted", "#2a2a2a"),
    ("muted-foreground", "#808080"),
    ("accent", "#404040"),
    ("accent-foreground", "#d9d9d9"),
    ("destructive", "#e06666"),
    ("destructive-foreground", "#ffffff"),
    ("border", "#353535"),
    ("input", "#303030"),
    ("ring", "#a0a0a0"),
    ("chart-1", "#a0a0a0"),
    ("chart-2", "#7e9ca0"),
    ("chart-3", "#707070"),
    ("chart-4", "#585858"),
    ("chart-5", "#404040"),
    ("sidebar", "#1f1f1f"),
    ("sidebar-foreground", "#d9d9d9"),
    ("sidebar-primary", "#a0a0a0"),
    ("sidebar-primary-foreground", "#1a1a1a"),
    ("sidebar-accent", "#404040"),
    ("sidebar-accent-foreground", "#d9d9d9"),
    ("sidebar-border", "#353535"),
    ("sidebar-ring", "#a0a0a0"),
    ("font-sans", "Inter, sans-serif"),
    ("font-serif", "Georgia, serif"),
    ("font-mono", "Fira Code, monospace")]

/-- Catalog entry `perpetuity` (src/utils/theme-presets.ts). -/
def preset_perpetuity : ThemePreset where
  light := some [
    ("background", "#e8f0f0"),
    ("foreground", "#0a4a55"),
    ("card", "#f2f7f7"),
    ("card-foreground", "#0a4a55"),
    ("popover", "#f2f7f7"),
    ("popover-foreground", "#0a4a55"),
    ("primary", "#06858e"),
    ("primary-foreground", "#ffffff"),
    ("secondary", "#d9eaea"),
    ("secondary-foreground", "#0a4a55"),
    ("muted", "#e0eaea"),
    ("muted-foreground", "#427a7e"),
    ("accent", "#c9e5e7"),
    ("accent-foreground", "#0a4a55"),
    ("destructive", "#d13838"),
    ("destructive-foreground", "#ffffff"),
    ("border", "#cde0e2"),
    ("input", "#d9eaea"),
    ("ring", "#06858e"),
    ("chart-1", "#06858e"),
    ("chart-2", "#1e9ea6"),
    ("chart-3", "#37b6be"),
    ("chart-4", "#5dc7ce"),
    ("chart-5", "#8ad8dd"),
    ("sidebar", "#daebed"),
    ("sidebar-foreground", "#0a4a55"),
    ("sidebar-primary", "#06858e"),
    ("sidebar-primary-foreground", "#ffffff"),
    ("sidebar-accent", "#c9e5e7"),
    ("sidebar-accent-foreground", "#0a4a55"),
    ("sidebar-border", "#cde0e2"),
    ("sidebar-ring", "#06858e"),
    ("font-sans", "Courier New, monospace"),
    ("font-serif", "Courier New, monospace"),
    ("font-mono", "Courier New, monospace"),
    ("radius", "0.125rem"),
    ("shadow-color", "hsl(185 70% 30% / 0.15)"),
    ("shadow-opacity", "0.15"),
    ("shadow-blur", "2px"),
    ("shadow-spread", "0px"),
    ("shadow-offset-x", "1px"),
    ("shadow-offset-y", "1px")]
  dark := some [
    ("background", "#0a1a20"),
    ("foreground", "#4de8e8"),
    ("card", "#0c2025"),
    ("card-foreground", "#4de8e8"),
    ("popover", "#0c2025"),
    ("popover-foreground", "#4de8e8"),
    ("primary", "#4de8e8"),
    ("primary-foreground", "#0a1a20"),
    ("secondary", "#164955"),
    ("secondary-foreground", "#4de8e8"),
    ("muted", "#0f3039"),
    ("muted-foreground", "#36a5a5"),
    ("accent", "#164955"),
    ("accent-foreground", "#4de8e8"),
    ("destructive", "#e83c3c"),
    ("destructive-foreground", "#f2f2f2"),
    ("border", "#164955"),
    ("input", "#164955"),
    ("ring", "#4de8e8"),
    ("chart-1", "#4de8e8"),
    ("chart-2", "#36a5a5"),
    ("chart-3", "#2d8a8a"),
    ("chart-4", "#19595e"),
    ("chart-5", "#0e383c"),
    ("sidebar", "#0a1a20"),
    ("sidebar-foreground", "#4de8e8"),
    ("sidebar-primary", "#4de8e8"),
    ("sidebar-primary-foreground", "#0a1a20"),
    ("sidebar-accent", "#164955"),
    ("sidebar-accent-foreground", "#4de8e8"),
    ("sidebar-border", "#164955"),
    ("sidebar-ring", "#4de8e8"),
    ("font-sans", "Source Code Pro, monospace"),
    ("font-serif", "Source Code Pro, monospace"),
    ("font-mono", "Source Code Pro, monospace"),
    ("radius", "0.125rem"),
    ("shadow-color", "hsl(180 70% 60% / 0.2)"),
    ("shadow-opacity", "0.2"),
    ("shadow-blur", "2px"),
    ("shadow-spread", "0px"),
    ("shadow-offset-x", "1px"),
    ("shadow-offset-y", "1px")]

/-- Catalog entry `kodama-grove` (src/utils/theme-presets.ts). -/
def preset_kodama_grove : ThemePreset where
  light := some [
    ("background", "#e4d7b0"),
    ("foreground", "#5c4b3e"),
    ("card", "#e7dbbf"),
    ("card-foreground", "#5c4b3e"),
    ("popover", "#f3ead2"),
    ("popover-foreground", "#5c4b3e"),
    ("primary", "#8d9d4f"),
    ("primary-foreground", "#fdfbf6"),
    ("secondary", "#decea0"),
    ("secondary-foreground", "#5c4b3e"),
    ("muted", "#decea0"),
    ("muted-foreground", "#85766a"),
    ("accent", "#dbc894"),
    ("accent-foreground", "#5c4b3e"),
    ("destructive", "#d98b7e"),
    ("destructive-foreground", "#faf8f2"),
    ("border", "#b19681"),
    ("input", "#dbc894"),
    ("ring", "#9db18c"),
    ("chart-1", "#9db18c"),
    ("chart-2", "#8a9f7b"),
    ("chart-3", "#bac9b4"),
    ("chart-4", "#71856a"),
    ("chart-5", "#5e6e58"),
    ("sidebar", "#e2d1a2"),
    ("sidebar-foreground", "#5c4b3e"),
    ("sidebar-primary", "#9db18c"),
    ("sidebar-primary-foreground", "#fdfbf6"),
    ("sidebar-accent", "#eae5d9"),
    ("sidebar-accent-foreground", "#5c4b3e"),
    ("sidebar-border", "#e5e0d4"),
    ("sidebar-ring", "#9db18c"),
    ("font-sans", "Merriweather, serif"),
    ("font-serif", "Source Serif 4, serif"),
    ("font-mono", "JetBrains Mono, monospace"),
    ("radius", "0.425rem"),
    ("shadow-color", "hsl(88 22% 35% / 0.15)"),
    ("shadow-opacity", "0.15"),
    ("shadow-blur", "2px"),
    ("shadow-spread", "0px"),
    ("shadow-offset-x", "3px"),
    ("shadow-offset-y", "3px")]
  dark := some [
    ("background", "#3a3529"),
    ("foreground", "#ede4d4"),
    ("card", "#413c33"),
    ("card-foreground", "#ede4d4"),
    ("popover", "#413c33"),
    ("popover-foreground", "#ede4d4"),
    ("primary", "#8a9f7b"),
    ("primary-foreground", "#2a2521"),
    ("secondary", "#5a5345"),
    ("secondary-foreground", "#ede4d4"),
    ("muted", "#4a4439"),
    ("muted-foreground", "#a8a096"),
    ("accent", "#a18f5c"),
    ("accent-foreground", "#2a2521"),
    ("destructive", "#b5766a"),
    ("destructive-foreground", "#f0e9db"),
    ("border", "#5a5345"),
    ("input", "#5a5345"),
    ("ring", "#8a9f7b"),
    ("chart-1", "#8a9f7b"),
    ("chart-2", "#9db18c"),
    ("chart-3", "#71856a"),
    ("chart-4", "#a18f5c"),
    ("chart-5", "#5e6e58"),
    ("sidebar", "#3a3529"),
    ("sidebar-foreground", "#ede4d4"),
    ("sidebar-primary", "#8a9f7b"),
    ("sidebar-primary-foreground", "#2a2521"),
    ("sidebar-accent", "#a18f5c"),
    ("sidebar-accent-foreground", "#2a2521"),
    ("sidebar-border", "#5a5345"),
    ("sidebar-ring", "#8a9f7b")]

/-- The preset catalog `presets` (src/utils/theme-presets.ts), in source order. -/
def presets : List (String × ThemePreset) := [
  ("modern-minimal", preset_modern_minimal),
  ("t3-chat", preset_t3_chat),
  ("bubblegum", preset_bubblegum),
  ("catppuccin", preset_catppuccin),
  ("graphite", preset_graphite),
  ("perpetuity", preset_perpetuity),
  ("kodama-grove", preset_kodama_grove)]

/-- `defaultDarkThemeStyles` (src/config/theme.ts):
`{...defaultLightThemeStyles, ...overrides}`. -/
def defaultDarkThemeStyles : TokenSet := jsMerge defaultLightThemeStyles defaultDarkOverrides

/-- The two theme modes. -/
inductive Mode where
  | light | dark
deriving DecidableEq

/-- `ThemeStyles` (src/types/theme.ts): the light and dark token sets. -/
structure ThemeStyles where
  light : TokenSet
  dark : TokenSet
deriving DecidableEq

/-- The token set of a mode. -/
def ThemeStyles.get (s : ThemeStyles) : Mode → TokenSet
  | .light => s.light
  | .dark => s.dark

/-- The opposite mode. -/
def Mode.other : Mode → Mode
  | .light => .dark
  | .dark => .light

/-- `ThemeEditorState` (src/types/editor.ts): styles, active mode, and the
optional active preset name (`preset?: string`; a JavaScript object built
without the key carries `undefined`, modelled as `none`). -/
structure ThemeEditorState where
  styles : ThemeStyles
  currentMode : Mode
  preset : Option String := none
deriving DecidableEq

/-- `defaultThemeState` (src/config/theme.ts).  Its `currentMode` is
`light` unless the browser reports a dark color-scheme preference; the
mode plays no role in any claim, the server-side default is used. -/
def defaultThemeState : ThemeEditorState where
  styles := { light := defaultLightThemeStyles, dark := defaultDarkThemeStyles }
  currentMode := .light

/-! ## src/utils/theme-presets.ts -/

/-- `presets[name]`: JavaScript object lookup on the catalog. -/
def presetLookup (name : String) : Option ThemePreset :=
  (presets.find? (fun p => p.1 == name)).map (fun p => p.2)

/-- `getPresetThemeStyles` (src/utils/theme-presets.ts): `"default"` and
unknown names resolve to the default styles; a catalog entry is merged
per mode over the defaults (`{...defaultTheme.m, ...(preset.styles.m || {})}`). -/
def getPresetThemeStyles (name : String) : ThemeStyles :=
  let defaultTheme := defaultThemeState.styles
  if name = "default" then defaultTheme
  else
    match presetLookup name with
    | none => defaultTheme
    | some preset =>
        { light := jsMerge defaultTheme.light (preset.light.getD [])
          dark := jsMerge defaultTheme.dark (preset.dark.getD []) }

/-! ## src/store/editor-store.ts -/

/-- The state carried by the zustand editor store. -/
structure EditorStore where
  themeState : ThemeEditorState
  hasChangedThemeFromDefault : Bool
deriving DecidableEq

/-- The store's initial state. -/
def initialEditorStore : EditorStore where
  themeState := defaultThemeState
  hasChangedThemeFromDefault := false

/-- `setThemeState`. -/
def setThemeState (store : EditorStore) (state : ThemeEditorState) : EditorStore :=
  { store with themeState := state }

/-- `applyThemePreset` (src/store/editor-store.ts): replace the styles with
the resolved preset, record the preset name, and latch
`hasChangedThemeFromDefault` when the preset is not `"default"`. -/
def applyThemePreset (store : EditorStore) (preset : String) : EditorStore :=
  let themeState := store.themeState
  { themeState := { themeState with preset := some preset, styles := getPresetThemeStyles preset }
    hasChangedThemeFromDefault :=
      if preset ≠ "default" then true else store.hasChangedThemeFromDefault }

/-- `resetToDefault` (src/store/editor-store.ts):
`set({ themeState: { ...defaultThemeState, currentMode: mode } })`.
The spread copies `defaultThemeState`, which has no `preset` key, so the
new `themeState.preset` is `undefined`. -/
def resetToDefault (store : EditorStore) : EditorStore :=
  let mode := store.themeState.currentMode
  { store with themeState := { defaultThemeState with currentMode := mode } }

/-- `resetToCurrentPreset` (src/store/editor-store.ts). -/
def resetToCurrentPreset (store : EditorStore) : EditorStore :=
  let themeState := store.themeState
  { store with
    themeState := { themeState with styles := getPresetThemeStyles (themeState.preset.getD "default") } }

/-- `hasDefaultThemeChanged` (src/store/editor-store.ts). -/
def hasDefaultThemeChanged (store : EditorStore) : Bool :=
  decide (¬ store.themeState.styles = defaultThemeState.styles)

/-- `hasCurrentPresetChanged` (src/store/editor-store.ts). -/
def hasCurrentPresetChanged (store : EditorStore) : Bool :=
  decide (¬ store.themeState.styles = getPresetThemeStyles (store.themeState.preset.getD "default"))

/-! ## `updateStyle` (theme control panel) -/

/-- `updateStyle` (theme-control-panel): a common key is written into both
modes' token sets; any other key is written only into the active mode's
set, which is first completed with the defaults
(`currentStyles = {...defaultThemeState.styles[mode], ...styles[mode]}`). -/
def updateStyle (styles : ThemeStyles) (currentMode : Mode) (key value : String) : ThemeStyles :=
  if COMMON_STYLES.contains key then
    { light := jsSet styles.light key value
      dark := jsSet styles.dark key value }
  else
    match currentMode with
    | .light =>
        { styles with light := jsSet (jsMerge (defaultThemeState.styles.get .light) styles.light) key value }
    | .dark =>
        { styles with dark := jsSet (jsMerge (defaultThemeState.styles.get .dark) styles.dark) key value }

/-! ## src/utils/shadows.ts -/

/-- `getShadowMap` (src/utils/shadows.ts).  The active mode's token set is
completed with the defaults, the shadow color is normalized to the bare
tailwind-v3 hsl triplet, and the eight named shadows are assembled from the
six base parameters (`color k` scales the base opacity by `k`;
`secondLayer` substitutes a fixed offset-y/blur pair and the base spread
minus one pixel). -/
def getShadowMap (themeEditorState : ThemeEditorState) : List (String × String) :=
  let mode := themeEditorState.currentMode
  let styles := jsMerge (defaultThemeState.styles.get mode) (themeEditorState.styles.get mode)
  let shadowColor := jsGetStr styles "shadow-color"
  let hsl := colorFormatter shadowColor .hsl "3"
  let offsetX := jsGetStr styles "shadow-offset-x"
  let offsetY := jsGetStr styles "shadow-offset-y"
  let blur := jsGetStr styles "shadow-blur"
  let spread := jsGetStr styles "shadow-spread"
  let opacity := jsParseFloat (jsGetStr styles "shadow-opacity")
  let color := fun (opacityMultiplier : ℚ) =>
    "hsl(" ++ hsl ++ " / " ++ toFixed2Opt (opacity.map (fun o => o * opacityMultiplier)) ++ ")"
  let secondLayer := fun (fixedOffsetY fixedBlur : String) =>
    let offsetX2 := offsetX
    let offsetY2 := fixedOffsetY
    let blur2 := fixedBlur
    let spread2 :=
      jsNumToStringOpt ((jsParseFloat (((jsGet styles "shadow-spread").map
        (fun s => jsReplaceFirst s "px" "")).getD "0")).map (fun q => q - 1)) ++ "px"
    let color2 := color 1.0
    offsetX2 ++ " " ++ offsetY2 ++ " " ++ blur2 ++ " " ++ spread2 ++ " " ++ color2
  [("shadow-2xs", offsetX ++ " " ++ offsetY ++ " " ++ blur ++ " " ++ spread ++ " " ++ color 0.5),
   ("shadow-xs", offsetX ++ " " ++ offsetY ++ " " ++ blur ++ " " ++ spread ++ " " ++ color 0.5),
   ("shadow-2xl", offsetX ++ " " ++ offsetY ++ " " ++ blur ++ " " ++ spread ++ " " ++ color 2.5),
   ("shadow-sm", offsetX ++ " " ++ offsetY ++ " " ++ blur ++ " " ++ spread ++ " " ++ color 1.0 ++
     ", " ++ secondLayer "1px" "2px"),
   ("shadow", offsetX ++ " " ++ offsetY ++ " " ++ blur ++ " " ++ spread ++ " " ++ color 1.0 ++
     ", " ++ secondLayer "1px" "2px"),
   ("shadow-md", offsetX ++ " " ++ offsetY ++ " " ++ blur ++ " " ++ spread ++ " " ++ color 1.0 ++
     ", " ++ secondLayer "2px" "4px"),
   ("shadow-lg", offsetX ++ " " ++ offsetY ++ " " ++ blur ++ " " ++ spread ++ " " ++ color 1.0 ++
     ", " ++ secondLayer "4px" "6px"),
   ("shadow-xl", offsetX ++ " " ++ offsetY ++ " " ++ blur ++ " " ++ spread ++ " " ++ color 1.0 ++
     ", " ++ secondLayer "8px" "10px")]

/-! ## src/utils/theme-style-generator.ts -/

/-- The color token keys emitted by `generateColorVariables`, in the order
the source template lists them. -/
def themeColorKeys : List String :=
  ["background", "foreground", "card", "card-foreground", "popover", "popover-foreground",
   "primary", "primary-foreground", "secondary", "secondary-foreground", "muted",
   "muted-foreground", "accent", "accent-foreground", "destructive", "destructive-foreground",
   "border", "input", "ring", "chart-1", "chart-2", "chart-3", "chart-4", "chart-5",
   "sidebar", "sidebar-foreground", "sidebar-primary", "sidebar-primary-foreground",
   "sidebar-accent", "sidebar-accent-foreground", "sidebar-border", "sidebar-ring"]

/-- One emitted custom-property line `\n  --k: v;`. -/
def cssLine (k v : String) : String := "\n  --" ++ k ++ ": " ++ v ++ ";"

/-- `generateColorVariables` (src/utils/theme-style-generator.ts): the
source template emits one `\n  --key: formatColor(value);` line per color
token, in the order of `themeColorKeys`. -/
def generateColorVariables (themeStyles : ThemeStyles) (mode : Mode)
    (formatColor : String → String) : String :=
  let styles := themeStyles.get mode
  String.join (themeColorKeys.map (fun k => cssLine k (formatColor (jsGetStr styles k))))

/-- `generateFontVariables` (src/utils/theme-style-generator.ts). -/
def generateFontVariables (themeStyles : ThemeStyles) (mode : Mode) : String :=
  let styles := themeStyles.get mode
  cssLine "font-sans" (jsGetStr styles "font-sans") ++
    cssLine "font-serif" (jsGetStr styles "font-serif") ++
    cssLine "font-mono" (jsGetStr styles "font-mono")

/-- The shadow map keys in the order `generateShadowVariables` emits them. -/
def shadowVarKeys : List String :=
  ["shadow-2xs", "shadow-xs", "shadow-sm", "shadow", "shadow-md", "shadow-lg",
   "shadow-xl", "shadow-2xl"]

/-- `generateShadowVariables` (src/utils/theme-style-generator.ts). -/
def generateShadowVariables (shadowMap : List (String × String)) : String :=
  String.join (shadowVarKeys.map (fun k => cssLine k (jsGetStr shadowMap k)))

/-- `generateTrackingVariables` (src/utils/theme-style-generator.ts):
empty when the light letter-spacing is the literal `"0em"`, otherwise the
fixed six-line tracking scale. -/
def generateTrackingVariables (themeStyles : ThemeStyles) : String :=
  if jsGet themeStyles.light "letter-spacing" = some "0em" then ""
  else
    "\n\n  --tracking-tighter: calc(var(--tracking-normal) - 0.05em);" ++
    "\n  --tracking-tight: calc(var(--tracking-normal) - 0.025em);" ++
    "\n  --tracking-normal: var(--tracking-normal);" ++
    "\n  --tracking-wide: calc(var(--tracking-normal) + 0.025em);" ++
    "\n  --tracking-wider: calc(var(--tracking-normal) + 0.05em);" ++
    "\n  --tracking-widest: calc(var(--tracking-normal) + 0.1em);"

/-- `generateThemeVariables` (src/utils/theme-style-generator.ts): one
selector block (`:root` for light, `.dark` for dark) with colors, fonts,
radius, shadows, then (light mode, only when differing from the default)
the `--tracking-normal` and `--spacing` overrides. -/
def generateThemeVariables (themeStyles : ThemeStyles) (mode : Mode)
    (formatColor : String → String) : String :=
  let selector := if mode = .dark then ".dark" else ":root"
  let colorVars := generateColorVariables themeStyles mode formatColor
  let fontVars := generateFontVariables themeStyles mode
  let radiusVar := cssLine "radius" (jsGetStr (themeStyles.get mode) "radius")
  let shadowVars :=
    generateShadowVariables (getShadowMap { styles := themeStyles, currentMode := mode })
  let spacingVar :=
    if mode = .light ∧ jsGet themeStyles.light "spacing" ≠ jsGet defaultLightThemeStyles "spacing"
    then cssLine "spacing" (jsGetStr themeStyles.light "spacing") else ""
  let trackingVars :=
    if mode = .light ∧
        jsGet themeStyles.light "letter-spacing" ≠ jsGet defaultLightThemeStyles "letter-spacing"
    then cssLine "tracking-normal" (jsGetStr themeStyles.light "letter-spacing") else ""
  selector ++ " \x7b" ++ colorVars ++ fontVars ++ radiusVar ++ shadowVars ++ trackingVars ++
    spacingVar ++ "\n\x7d"

/-- `generateTailwindV4ThemeInline` (src/utils/theme-style-generator.ts):
the literal `@theme inline` aliasing block of the source, with the
tracking block appended when the light letter-spacing is customized. -/
def generateTailwindV4ThemeInline (themeStyles : ThemeStyles) : String :=
  "@theme inline \x7b\n" ++
    "  --color-background: var(--background);\n" ++
    "  --color-foreground: var(--foreground);\n" ++
    "  --color-card: var(--card);\n" ++
    "  --color-card-foreground: var(--card-foreground);\n" ++
    "  --color-popover: var(--popover);\n" ++
    "  --color-popover-foreground: var(--popover-foreground);\n" ++
    "  --color-primary: var(--primary);\n" ++
    "  --color-primary-foreground: var(--primary-foreground);\n" ++
    "  --color-secondary: var(--secondary);\n" ++
    "  --color-secondary-foreground: var(--secondary-foreground);\n" ++
    "  --color-muted: var(--muted);\n" ++
    "  --color-muted-foreground: var(--muted-foreground);\n" ++
    "  --color-accent: var(--accent);\n" ++
    "  --color-accent-foreground: var(--accent-foreground);\n" ++
    "  --color-destructive: var(--destructive);\n" ++
    "  --color-destructive-foreground: var(--destructive-foreground);\n" ++
    "  --color-border: var(--border);\n" ++
    "  --color-input: var(--input);\n" ++
    "  --color-ring: var(--ring);\n" ++
    "  --color-chart-1: var(--chart-1);\n" ++
    "  --color-chart-2: var(--chart-2);\n" ++
    "  --color-chart-3: var(--chart-3);\n" ++
    "  --color-chart-4: var(--chart-4);\n" ++
    "  --color-chart-5: var(--chart-5);\n" ++
    "  --color-sidebar: var(--sidebar);\n" ++
    "  --color-sidebar-foreground: var(--sidebar-foreground);\n" ++
    "  --color-sidebar-primary: var(--sidebar-primary);\n" ++
    "  --color-sidebar-primary-foreground: var(--sidebar-primary-foreground);\n" ++
    "  --color-sidebar-accent: var(--sidebar-accent);\n" ++
    "  --color-sidebar-accent-foreground: var(--sidebar-accent-foreground);\n" ++
    "  --color-sidebar-border: var(--sidebar-border);\n" ++
    "  --color-sidebar-ring: var(--sidebar-ring);\n" ++
    "\n" ++
    "  --font-sans: var(--font-sans);\n" ++
    "  --font-mono: var(--font-mono);\n" ++
    "  --font-serif: var(--font-serif);\n" ++
    "\n" ++
    "  --radius-sm: calc(var(--radius) - 4px);\n" ++
    "  --radius-md: calc(var(--radius) - 2px);\n" ++
    "  --radius-lg: var(--radius);\n" ++
    "  --radius-xl: calc(var(--radius) + 4px);\n" ++
    "\n" ++
    "  --shadow-2xs: var(--shadow-2xs);\n" ++
    "  --shadow-xs: var(--shadow-xs);\n" ++
    "  --shadow-sm: var(--shadow-sm);\n" ++
    "  --shadow: var(--shadow);\n" ++
    "  --shadow-md: var(--shadow-md);\n" ++
    "  --shadow-lg: var(--shadow-lg);\n" ++
    "  --shadow-xl: var(--shadow-xl);\n" ++
    "  --shadow-2xl: var(--shadow-2xl);" ++
    generateTrackingVariables themeStyles ++ "\n" ++
    "\x7d"

/-- The partially-validated styles taken by `generateThemeCode`: the
`"light" in styles` / `"dark" in styles` checks are key-presence tests,
modelled as options. -/
structure GenStyles where
  light : Option TokenSet := none
  dark : Option TokenSet := none

/-- The (unvalidated) editor state handed to `generateThemeCode`. -/
structure GenThemeEditorState where
  styles : GenStyles

/-- A fully-typed `ThemeEditorState`, viewed as generator input. -/
def ThemeStyles.toGenState (styles : ThemeStyles) : GenThemeEditorState :=
  { styles := { light := some styles.light, dark := some styles.dark } }

/-- `generateThemeCode` (src/utils/theme-style-generator.ts): throws the
malformed-input error when the styles object lacks a `light` or `dark`
key, otherwise emits the `:root` block, the `.dark` block, the
tailwind-v4 inline theme (v4 only) and the `body` letter-spacing rule
(customized letter-spacing only). -/
def generateThemeCode (themeEditorState : GenThemeEditorState)
    (colorFormat : ColorFormat := .hsl) (tailwindVersion : String := "3") :
    Except String String :=
  if themeEditorState.styles.light.isNone ∨ themeEditorState.styles.dark.isNone then
    .error "Invalid theme styles: missing light or dark mode"
  else
    let themeStyles : ThemeStyles :=
      { light := themeEditorState.styles.light.getD []
        dark := themeEditorState.styles.dark.getD [] }
    let formatColor := fun (color : String) => colorFormatter color colorFormat tailwindVersion
    let lightTheme := generateThemeVariables themeStyles .light formatColor
    let darkTheme := generateThemeVariables themeStyles .dark formatColor
    let tailwindV4Theme :=
      if tailwindVersion = "4" then "\n\n" ++ generateTailwindV4ThemeInline themeStyles else ""
    let bodyLetterSpacing :=
      if jsGet themeStyles.light "letter-spacing" ≠ some "0em" then
        "\n\nbody \x7b\n  letter-spacing: var(--tracking-normal);\n\x7d"
      else ""
    .ok (lightTheme ++ "\n\n" ++ darkTheme ++ tailwindV4Theme ++ bodyLetterSpacing)

/-! ## src/utils/parse-css-input.ts

The importer extracts blocks and declarations with two regexes:
`${escapeRegExp(selector)}\s*\x7b([^\x7d]+)\x7d` (first match, group 1)
and the global declaration pattern `--[^:]+:\s*[^;]+` (flag `g`).  Both are
implemented below by direct scanning
with the exact leftmost-match semantics of those patterns: the block
pattern needs the literal selector, optional whitespace, an opening brace,
a nonempty run of non-closing-brace characters and a closing brace; the
declaration pattern needs `--`, a nonempty colon-free name, a colon and a
nonempty run of non-semicolon characters, and the global scan resumes
after each match. -/

/-- The block regex tried at one start position. -/
def matchBlockAt (sel : List Char) (s : List Char) : Option (List Char) :=
  if sel.isPrefixOf s then
    let rest := (s.drop sel.length).dropWhile isJsWs
    match rest with
    | '\x7b' :: rest2 =>
        let content := rest2.takeWhile (fun c => c ≠ '\x7d')
        if content.isEmpty then none
        else match rest2.drop content.length with
          | '\x7d' :: _ => some content
          | _ => none
    | _ => none
  else none

/-- Leftmost match of the block regex. -/
def findBlock (sel : List Char) : List Char → Option (List Char)
  | [] => none
  | c :: rest =>
      match matchBlockAt sel (c :: rest) with
      | some content => some content
      | none => findBlock sel rest

/-- `extractCssBlockContent` (src/utils/parse-css-input.ts): the first
matched block's trimmed content; `|| null` turns a blank content into a
missing one. -/
def extractCssBlockContent (input selector : String) : Option String :=
  match findBlock selector.data input.data with
  | some content =>
      let t := jsTrim content
      if t.isEmpty then none else some (String.mk t)
  | none => none

/-- All (global, leftmost, non-overlapping) matches of the declaration
regex `--[^:]+:\s*[^;]+`; on a failed attempt the scan resumes one
character after the attempted start, as a regex engine does. -/
def findDecls : List Char → List (List Char)
  | [] => []
  | [_] => []
  | '-' :: '-' :: rest =>
      let name := rest.takeWhile (fun c => c ≠ ':')
      if name.isEmpty then findDecls ('-' :: rest)
      else match h : rest.drop name.length with
        | ':' :: rest2 =>
            let value := rest2.takeWhile (fun c => c ≠ ';')
            if value.isEmpty then findDecls ('-' :: rest)
            else ('-' :: '-' :: (name ++ ':' :: value)) :: findDecls (rest2.drop value.length)
        | _ => findDecls ('-' :: rest)
  | _ :: rest => findDecls rest
termination_by l => l.length
decreasing_by
  all_goals simp_all
  have h1 : rest2.length < rest.length := by
    have := congrArg List.length h
    simp [List.length_drop] at this
    omega
  omega

/-- `variableNames` (src/utils/parse-css-input.ts):
`Object.keys(defaultThemeState.styles.light)`. -/
def variableNames : List String := defaultThemeState.styles.light.map (fun p => p.1)

/-- `nonColorVariables` (src/utils/parse-css-input.ts). -/
def nonColorVariables : List String := COMMON_STYLES

/-- `String.prototype.split(":")`. -/
def splitOnColon : List Char → List (List Char)
  | [] => [[]]
  | ':' :: r => [] :: splitOnColon r
  | c :: r =>
      match splitOnColon r with
      | p :: ps => (c :: p) :: ps
      | [] => [[c]]

/-- `processColorValue` (src/utils/parse-css-input.ts): a value starting
with a digit is assumed to be a bare hsl triplet and wrapped. -/
def processColorValue (value : String) : String :=
  match value.data with
  | c :: _ => if isDigit c then "hsl(" ++ value ++ ")" else value
  | [] => value

/-- The `forEach` body of `parseColorVariables`
(src/utils/parse-css-input.ts): split the declaration at colons, trim,
strip the `--` prefix; skip unknown names; store common (non-color) values
raw and all others converted to hex. -/
def applyDeclaration (target : TokenSet) (decl : List Char) : TokenSet :=
  let parts := (splitOnColon decl).map (fun p => String.mk (jsTrim p))
  let name := parts.getD 0 ""
  let value := parts.getD 1 ""
  let cleanName := jsReplaceFirst name "--" ""
  if variableNames.contains cleanName then
    if nonColorVariables.contains cleanName then jsSet target cleanName value
    else jsSet target cleanName (colorFormatter (processColorValue value) .hex)
  else target

/-- `parseColorVariables` (src/utils/parse-css-input.ts). -/
def parseColorVariables (cssContent : String) : TokenSet :=
  (findDecls cssContent.data).foldl applyDeclaration []

/-- `parseCssInput` (src/utils/parse-css-input.ts): extract the `:root`
and `.dark` blocks independently and parse each into a partial token set;
a missing block yields an empty partial.  Nothing in the model throws, so
the top-level `catch` (which would return the partials accumulated so
far) is not exercised. -/
def parseCssInput (input : String) : TokenSet × TokenSet :=
  let lightColors :=
    match extractCssBlockContent input ":root" with
    | some c => parseColorVariables c
    | none => []
  let darkColors :=
    match extractCssBlockContent input ".dark" with
    | some c => parseColorVariables c
    | none => []
  (lightColors, darkColors)

/-! ## Infrastructure for the import round-trip (claim C7)

The generator emits every custom property as the uniform line
`\n  --name: value;`; the following definitions name that rendered shape
(`renderLine`), the list of (name, value) pairs each selector block
contains (`genDecls`, read off the source of `generateThemeVariables`),
the raw substring the importer's declaration regex matches for such a line
(`declMatch`), and the token set the importer accumulates from a list of
such declarations (`importFold`). -/

/-- The characters of one emitted declaration line `\n  --k: v;`. -/
def renderLine (kv : String × String) : List Char :=
  '\n' :: ' ' :: ' ' :: '-' :: '-' :: (kv.1.data ++ ':' :: ' ' :: (kv.2.data ++ [';']))

/-- The characters of a run of emitted declaration lines. -/
def renderAll (ds : List (String × String)) : List Char := (ds.map renderLine).join

/-- The substring of a rendered line matched by the importer's declaration
regex `--[^:]+:\s*[^;]+` (the leading whitespace of the value is part of
the match). -/
def declMatch (kv : String × String) : List Char :=
  '-' :: '-' :: (kv.1.data ++ ':' :: ' ' :: kv.2.data)

/-- A rendered run as the importer sees it after `extractCssBlockContent`
trims the block content: the first line loses its leading `\n  `. -/
def scanInput : List (String × String) → List Char
  | [] => []
  | kv :: rest => '-' :: '-' :: (kv.1.data ++ ':' :: ' ' :: (kv.2.data ++ [';'])) ++ renderAll rest

/-- The (name, value) pairs one selector block of the generator contains,
in emission order (read off `generateThemeVariables`). -/
def genDecls (themeStyles : ThemeStyles) (mode : Mode) (formatColor : String → String) :
    List (String × String) :=
  themeColorKeys.map (fun k => (k, formatColor (jsGetStr (themeStyles.get mode) k))) ++
    [("font-sans", jsGetStr (themeStyles.get mode) "font-sans"),
     ("font-serif", jsGetStr (themeStyles.get mode) "font-serif"),
     ("font-mono", jsGetStr (themeStyles.get mode) "font-mono"),
     ("radius", jsGetStr (themeStyles.get mode) "radius")] ++
    shadowVarKeys.map (fun k =>
      (k, jsGetStr (getShadowMap { styles := themeStyles, currentMode := mode }) k)) ++
    (if mode = .light ∧
        jsGet themeStyles.light "letter-spacing" ≠ jsGet defaultLightThemeStyles "letter-spacing"
     then [("tracking-normal", jsGetStr themeStyles.light "letter-spacing")] else []) ++
    (if mode = .light ∧ jsGet themeStyles.light "spacing" ≠ jsGet defaultLightThemeStyles "spacing"
     then [("spacing", jsGetStr themeStyles.light "spacing")] else [])

/-- The token set the importer accumulates from a list of rendered
declarations. -/
def importFold (ds : List (String × String)) : TokenSet :=
  (ds.map declMatch).foldl applyDeclaration []

/-- A value string that cannot disturb the importer's regex scanning: it
contains no semicolon and no brace. -/
def CssSafe (s : String) : Prop :=
  ∀ c ∈ s.data, c ≠ ';' ∧ c ≠ '\x7b' ∧ c ≠ '\x7d'

instance (s : String) : Decidable (CssSafe s) := by
  unfold CssSafe
  infer_instance

/-- A token name as emitted by the generator: nonempty, and free of
colons, semicolons, whitespace and braces. -/
def KeyOk (s : String) : Prop :=
  s.data ≠ [] ∧ ∀ c ∈ s.data, c ≠ ':' ∧ c ≠ ';' ∧ isJsWs c = false ∧ c ≠ '\x7b' ∧ c ≠ '\x7d'

instance (s : String) : Decidable (KeyOk s) := by
  unfold KeyOk
  exact instDecidableAnd

/-- A value string whose own import parse is transparent: colon-free and
trim-invariant (so the stored value is the value itself). -/
def ValueOk (s : String) : Prop :=
  (∀ c ∈ s.data, c ≠ ':') ∧ jsTrim s.data = s.data

instance (s : String) : Decidable (ValueOk s) := by
  unfold ValueOk
  exact instDecidableAnd

/-! # Theorems

First the generic lemmas about the JavaScript-object model, then one
theorem per claim (with witnesses and counterexamples where required). -/

theorem jsGet_cons (k0 : String) (v0 : String) (rest : TokenSet) (k : String) :
    jsGet ((k0, v0) :: rest) k = if k0 == k then some v0 else jsGet rest k := by
  simp only [jsGet, List.find?_cons]
  cases h : (k0 == k) <;> simp [h]

theorem jsGet_append (a b : TokenSet) (k : String) :
    jsGet (a ++ b) k = (jsGet a k).or (jsGet b k) := by
  induction a with
  | nil => simp [jsGet]
  | cons p rest ih =>
      obtain ⟨k0, v0⟩ := p
      rw [List.cons_append, jsGet_cons, jsGet_cons]
      cases h : (k0 == k) <;> simp [ih]

theorem jsGet_mapOverride (a b : TokenSet) (k : String) :
    jsGet (a.map (fun p => match jsGet b p.1 with | some v => (p.1, v) | none => p)) k =
      match jsGet a k with
      | none => none
      | some v0 => some ((jsGet b k).getD v0) := by
  induction a with
  | nil => simp [jsGet]
  | cons p rest ih =>
      obtain ⟨k0, v0⟩ := p
      rw [List.map_cons, jsGet_cons]
      by_cases hk : (k0 == k) = true
      · have hk' : k0 = k := eq_of_beq hk
        subst hk'
        cases hb : jsGet b k0 <;> simp [jsGet_cons, hk, hb]
      · have h1 :
            (match jsGet b k0 with | some v => (k0, v) | none => (k0, v0)).1 = k0 := by
          cases jsGet b k0 <;> rfl
        cases hb : jsGet b k0 <;>
          simp only [hb] <;>
          rw [jsGet_cons] <;>
          simp only [Bool.not_eq_true] at hk <;>
          simp [hk, ih]

theorem jsGet_filterKeep (b : TokenSet) (q : String × String → Bool) (k : String)
    (hq : ∀ v, q (k, v) = true) : jsGet (b.filter q) k = jsGet b k := by
  induction b with
  | nil => rfl
  | cons p rest ih =>
      obtain ⟨k1, v1⟩ := p
      by_cases hk : (k1 == k) = true
      · have hk' : k1 = k := eq_of_beq hk
        subst hk'
        rw [List.filter_cons]
        simp [hq v1, jsGet_cons]
      · rw [List.filter_cons]
        rw [jsGet_cons]
        simp only [hk, if_false]
        cases hkeep : q (k1, v1)
        · simp [ih]
        · simp only [if_true]
          rw [jsGet_cons]
          simp [hk, ih]

theorem jsGet_merge (a b : TokenSet) (k : String) :
    jsGet (jsMerge a b) k =
      match jsGet b k with
      | some v => some v
      | none => jsGet a k := by
  unfold jsMerge
  rw [jsGet_append, jsGet_mapOverride]
  cases ha : jsGet a k
  · rw [jsGet_filterKeep]
    · simp only [Option.none_or]
      cases jsGet b k <;> rfl
    · intro v
      simp [ha]
  · cases hb : jsGet b k <;> simp

theorem jsGet_set_self (o : TokenSet) (k v : String) : jsGet (jsSet o k v) k = some v := by
  unfold jsSet
  rw [jsGet_merge]
  have : jsGet [(k, v)] k = some v := by
    rw [jsGet_cons]
    simp
  rw [this]

theorem jsGet_set_other (o : TokenSet) (k v k' : String) (h : k ≠ k') :
    jsGet (jsSet o k v) k' = jsGet o k' := by
  unfold jsSet
  rw [jsGet_merge]
  have : jsGet [(k, v)] k' = none := by
    rw [jsGet_cons]
    simp [jsGet, h]
  rw [this]

/-- C2 (counterexample): the claim says `resetToDefault()` leaves the
previously selected preset name in the state (stale).  It does not: on the
reachable state obtained from the initial store by
`applyThemePreset "bubblegum"`, the preset field is `some "bubblegum"`
before the reset and `none` (cleared) after it, because the new
`themeState` is spread from `defaultThemeState`, which has no `preset`
key. -/
theorem claim_C2_counterexample :
    (applyThemePreset initialEditorStore "bubblegum").themeState.preset = some "bubblegum" ∧
      (resetToDefault (applyThemePreset initialEditorStore "bubblegum")).themeState.preset ≠
        (applyThemePreset initialEditorStore "bubblegum").themeState.preset := by
  constructor
  · rfl
  · intro h
    simp [resetToDefault, applyThemePreset, defaultThemeState] at h

/-- C2 (amended): for every editor store state, `resetToDefault()` replaces
`styles` with the hard-coded default styles and preserves `currentMode`,
and it resets the `preset` field to `undefined` (`none`): the new
`themeState` is rebuilt from `defaultThemeState`, which carries no preset
name. -/
theorem claim_C2 (store : EditorStore) :
    (resetToDefault store).themeState.styles = defaultThemeState.styles ∧
      (resetToDefault store).themeState.currentMode = store.themeState.currentMode ∧
      (resetToDefault store).themeState.preset = none := by
  exact ⟨rfl, rfl, rfl⟩

/-- C3: a per-token edit of a common-set key writes the value into both
modes' token sets (so the two modes end up equal at that key); an edit of
any other key writes the value into the active mode's token set and leaves
the other mode's token set unchanged. -/
theorem claim_C3 (styles : ThemeStyles) (mode : Mode) (k v : String) :
    (k ∈ COMMON_STYLES →
      jsGet (updateStyle styles mode k v).light k = some v ∧
        jsGet (updateStyle styles mode k v).dark k = some v) ∧
    (k ∉ COMMON_STYLES →
      jsGet ((updateStyle styles mode k v).get mode) k = some v ∧
        (updateStyle styles mode k v).get mode.other = styles.get mode.other) := by
  constructor
  · intro hk
    have hc : COMMON_STYLES.contains k = true := by
      exact List.elem_eq_true_of_mem hk
    unfold updateStyle
    rw [if_pos hc]
    exact ⟨jsGet_set_self _ _ _, jsGet_set_self _ _ _⟩
  · intro hk
    have hc : COMMON_STYLES.contains k = false := by
      cases h : COMMON_STYLES.contains k
      · rfl
      · exact absurd (List.mem_of_elem_eq_true h) hk
    unfold updateStyle
    rw [hc]
    cases mode <;>
      exact ⟨jsGet_set_self _ _ _, rfl⟩

/-- Witness for C3 at concrete inputs: editing the common key `"radius"`
while viewing dark mode also writes the light-mode value; editing the
non-common key `"primary"` in dark mode leaves the light token set
untouched. -/
theorem claim_C3_witness :
    (jsGet (updateStyle defaultThemeState.styles .dark "radius" "1rem").light "radius" =
        some "1rem" ∧
      jsGet (updateStyle defaultThemeState.styles .dark "radius" "1rem").dark "radius" =
        some "1rem") ∧
    (jsGet (updateStyle defaultThemeState.styles .dark "primary" "#123456").dark "primary" =
        some "#123456" ∧
      (updateStyle defaultThemeState.styles .dark "primary" "#123456").light =
        defaultThemeState.styles.light) := by
  refine ⟨(claim_C3 defaultThemeState.styles .dark "radius" "1rem").1 (by decide), ?_⟩
  have h := (claim_C3 defaultThemeState.styles .dark "primary" "#123456").2 (by decide)
  exact h

/-- C10: applying a preset name that is neither `"default"` nor a catalog
key resolves to the default styles, records the unknown name as the active
preset, and still latches `hasChangedThemeFromDefault` — so a state with
the latch set but default styles is one operation away. -/
theorem claim_C10 (store : EditorStore) (name : String)
    (h1 : name ≠ "default") (h2 : presetLookup name = none) :
    (applyThemePreset store name).themeState.styles = defaultThemeState.styles ∧
      (applyThemePreset store name).themeState.preset = some name ∧
      (applyThemePreset store name).hasChangedThemeFromDefault = true := by
  refine ⟨?_, rfl, ?_⟩
  · show getPresetThemeStyles name = defaultThemeState.styles
    unfold getPresetThemeStyles
    rw [if_neg h1, h2]
  · show (if name ≠ "default" then true else store.hasChangedThemeFromDefault) = true
    rw [if_pos h1]

/-- Witness for C10: applying `"nonexistent-xyz"` to the initial store. -/
theorem claim_C10_witness :
    (applyThemePreset initialEditorStore "nonexistent-xyz").themeState.styles =
        defaultThemeState.styles ∧
      (applyThemePreset initialEditorStore "nonexistent-xyz").themeState.preset =
        some "nonexistent-xyz" ∧
      (applyThemePreset initialEditorStore "nonexistent-xyz").hasChangedThemeFromDefault =
        true :=
  claim_C10 initialEditorStore "nonexistent-xyz" (by decide) rfl

/-- C6: `generateThemeCode` raises the malformed-input error exactly when
the styles object lacks a `light` key or lacks a `dark` key, and succeeds
whenever both keys are present, for every color format and tailwind
version. -/
theorem claim_C6 (state : GenThemeEditorState) (fmt : ColorFormat) (ver : String) :
    ((state.styles.light.isNone ∨ state.styles.dark.isNone) →
      generateThemeCode state fmt ver =
        .error "Invalid theme styles: missing light or dark mode") ∧
    (state.styles.light.isSome → state.styles.dark.isSome →
      ∃ out, generateThemeCode state fmt ver = .ok out) := by
  constructor
  · intro h
    unfold generateThemeCode
    rw [if_pos h]
  · intro hl hd
    have h1 : state.styles.light.isNone = false := by
      cases h : state.styles.light <;> simp_all
    have h2 : state.styles.dark.isNone = false := by
      cases h : state.styles.dark <;> simp_all
    unfold generateThemeCode
    rw [if_neg (by simp [h1, h2])]
    exact ⟨_, rfl⟩

/-- Witness for C6: `{styles: {light: {}}}` (no `dark` key) raises the
malformed-input error, and the default styles (both keys present) do
not. -/
theorem claim_C6_witness :
    generateThemeCode ⟨⟨some [], none⟩⟩ .hex "3" =
        .error "Invalid theme styles: missing light or dark mode" ∧
      ∃ out, generateThemeCode defaultThemeState.styles.toGenState .hex "3" = .ok out := by
  constructor
  · exact (claim_C6 ⟨⟨some [], none⟩⟩ .hex "3").1 (by simp)
  · exact (claim_C6 defaultThemeState.styles.toGenState .hex "3").2 (by simp [ThemeStyles.toGenState]) (by simp [ThemeStyles.toGenState])

/-- C8: on an input string that does not parse as a color, `colorFormatter`
returns the input unchanged, for every target format and both tailwind
versions (fail-soft passthrough; the `catch` returns the original
literal). -/
theorem claim_C8 (s : String) (h : parseColor s = none) (fmt : ColorFormat)
    (ver : String) : colorFormatter s fmt ver = s := by
  unfold colorFormatter
  rw [h]

/-- Witness for C8 at a concrete unparseable literal and all four
formats. -/
theorem claim_C8_witness :
    colorFormatter "not-a-color" .hsl "3" = "not-a-color" ∧
      colorFormatter "not-a-color" .rgb "4" = "not-a-color" ∧
      colorFormatter "not-a-color" .oklch "3" = "not-a-color" ∧
      colorFormatter "not-a-color" .hex "4" = "not-a-color" :=
  ⟨claim_C8 _ (by decide) _ _, claim_C8 _ (by decide) _ _, claim_C8 _ (by decide) _ _,
    claim_C8 _ (by decide) _ _⟩

/-- C1: for every color literal that parses, the tailwind-v4 hsl output is
exactly the tailwind-v3 bare triplet wrapped in `hsl(...)` (same numeric
components, formatted by `formatNumber`: integers plain, non-integers fixed
to two decimals, missing components as `"0"`); concretely, `"#ff0000"`
yields the bare `0 100% 50%` for version `"3"` (no `hsl(` prefix) and
`hsl(0 100% 50%)` for version `"4"`. -/
theorem claim_C1 :
    (∀ c : String, (parseColor c).isSome →
      colorFormatter c .hsl "4" = "hsl(" ++ colorFormatter c .hsl "3" ++ ")") ∧
    colorFormatter "#ff0000" .hsl "3" = "0 100% 50%" ∧
    (colorFormatter "#ff0000" .hsl "3").take 4 ≠ "hsl(" ∧
    colorFormatter "#ff0000" .hsl "4" = "hsl(0 100% 50%)" := by
  refine ⟨?_, ?_, ?_, ?_⟩
  · intro c h
    obtain ⟨col, hcol⟩ := Option.isSome_iff_exists.mp h
    unfold colorFormatter
    rw [hcol]
    simp
  · with_unfolding_all decide
  · with_unfolding_all decide
  · with_unfolding_all decide

/-- Witness for C1's quantified part at `"#ff0000"`. -/
theorem claim_C1_witness :
    (parseColor "#ff0000").isSome = true ∧
      colorFormatter "#ff0000" .hsl "4" = "hsl(" ++ colorFormatter "#ff0000" .hsl "3" ++ ")" :=
  ⟨by with_unfolding_all decide, claim_C1.1 "#ff0000" (by with_unfolding_all decide)⟩

/-- C4: for every editor state (any token set and mode), the shadow map has
exactly the eight named entries; `shadow-2xs`/`shadow-xs`/`shadow-2xl` are
one `offset-x offset-y blur spread hsl(triplet / opacity·k)` term with
`k = 0.5, 0.5, 2.5` respectively; the five double-layer sizes are two
comma-separated terms, the first being the single-layer form at factor
`1.0`, the second reusing the same offset-x with the fixed
(offset-y, blur) pairs `sm`/`shadow → (1px, 2px)`, `md → (2px, 4px)`,
`lg → (4px, 6px)`, `xl → (8px, 10px)` and a spread of (numeric base spread
− 1)px at factor `1.0`; the color is always the tailwind-v3 bare hsl
triplet wrapped locally in `hsl(...)`, with `opacity·k` fixed to two
decimals. -/
theorem claim_C4 (st : ThemeEditorState) :
    (getShadowMap st).map Prod.fst =
      ["shadow-2xs", "shadow-xs", "shadow-2xl", "shadow-sm", "shadow", "shadow-md",
        "shadow-lg", "shadow-xl"] ∧
    (getShadowMap st).length = 8 ∧
    (let S := jsMerge (defaultThemeState.styles.get st.currentMode)
        (st.styles.get st.currentMode)
     let triplet := colorFormatter (jsGetStr S "shadow-color") .hsl "3"
     let opacity := jsParseFloat (jsGetStr S "shadow-opacity")
     let col := fun (k : ℚ) =>
       "hsl(" ++ triplet ++ " / " ++ toFixed2Opt (opacity.map (fun o => o * k)) ++ ")"
     let single := fun (k : ℚ) =>
       jsGetStr S "shadow-offset-x" ++ " " ++ jsGetStr S "shadow-offset-y" ++ " " ++
         jsGetStr S "shadow-blur" ++ " " ++ jsGetStr S "shadow-spread" ++ " " ++ col k
     let second := fun (oy bl : String) =>
       jsGetStr S "shadow-offset-x" ++ " " ++ oy ++ " " ++ bl ++ " " ++
         (jsNumToStringOpt ((jsParseFloat (((jsGet S "shadow-spread").map
           (fun s => jsReplaceFirst s "px" "")).getD "0")).map (fun q => q - 1)) ++ "px") ++
         " " ++ col 1.0
     getShadowMap st =
       [("shadow-2xs", single 0.5), ("shadow-xs", single 0.5), ("shadow-2xl", single 2.5),
        ("shadow-sm", single 1.0 ++ ", " ++ second "1px" "2px"),
        ("shadow", single 1.0 ++ ", " ++ second "1px" "2px"),
        ("shadow-md", single 1.0 ++ ", " ++ second "2px" "4px"),
        ("shadow-lg", single 1.0 ++ ", " ++ second "4px" "6px"),
        ("shadow-xl", single 1.0 ++ ", " ++ second "8px" "10px")]) := by
  refine ⟨rfl, rfl, ?_⟩
  intro S triplet opacity col single second
  rfl

/-! ### Bounds for the luminance pipeline (claim C9) -/

theorem nthRootAux_bounds (pw : ℕ) :
    ∀ (n : ℕ) (a lo hi : ℚ), 0 ≤ lo → lo ≤ hi →
      0 ≤ nthRootAux pw n a lo hi ∧ nthRootAux pw n a lo hi ≤ hi := by
  intro n
  induction n with
  | zero => exact fun a lo hi h0 h1 => ⟨le_trans h0 h1, le_refl _⟩
  | succ n ih =>
      intro a lo hi h0 h1
      simp only [nthRootAux]
      split_ifs
      · have h := ih a ((lo + hi) / 2) hi (by linarith) (by linarith)
        exact ⟨h.1, h.2⟩
      · have h := ih a lo ((lo + hi) / 2) h0 (by linarith)
        exact ⟨h.1, le_trans h.2 (by linarith)⟩

theorem nthRootApprox_bounds (pw n : ℕ) (a : ℚ) :
    0 ≤ nthRootApprox pw n a ∧ nthRootApprox pw n a ≤ max 1 a :=
  nthRootAux_bounds pw n a 0 (max 1 a) le_rfl
    (le_trans zero_le_one (le_max_left 1 a))

theorem nthRootAux_one (n : ℕ) : ∀ lo : ℚ, 0 ≤ lo → lo ≤ 1 → nthRootAux 5 n 1 lo 1 = 1 := by
  induction n with
  | zero => intro lo _ _; rfl
  | succ n ih =>
      intro lo h0 h1
      simp only [nthRootAux]
      rw [if_pos]
      · exact ih _ (by linarith) (by linarith)
      · calc ((lo + 1) / 2) ^ 5 ≤ 1 ^ 5 := by
              apply pow_le_pow_left (by linarith) (by linarith)
          _ = 1 := one_pow 5

theorem pow24_one : pow24 1 = 1 := by
  unfold pow24 nthRootApprox
  rw [one_pow, max_self]
  exact nthRootAux_one 32 0 le_rfl zero_le_one

theorem srgbLin_bounds (c : ℚ) (h0 : 0 ≤ c) (h1 : c ≤ 1) :
    0 ≤ srgbLin c ∧ srgbLin c ≤ 1 := by
  unfold srgbLin
  split_ifs with hc
  · constructor
    · positivity
    · rw [div_le_one (by norm_num)]
      linarith
  · unfold pow24
    have ht0 : (0 : ℚ) ≤ (c + 0.055) / 1.055 := by positivity
    have ht1 : (c + 0.055) / 1.055 ≤ 1 := by
      rw [div_le_one (by norm_num)]
      linarith
    have hp : ((c + 0.055) / 1.055) ^ 12 ≤ 1 := pow_le_one ht0 ht1
    have hb := nthRootApprox_bounds 5 32 (((c + 0.055) / 1.055) ^ 12)
    exact ⟨hb.1, le_trans hb.2 (by rw [max_eq_left hp])⟩

theorem srgbLin_one : srgbLin 1 = 1 := by
  unfold srgbLin
  rw [if_neg (by norm_num)]
  rw [show ((1 : ℚ) + 0.055) / 1.055 = 1 by norm_num, pow24_one]

theorem clamp01_bounds (x : ℚ) : 0 ≤ clamp01 x ∧ clamp01 x ≤ 1 :=
  ⟨le_max_left 0 _, max_le zero_le_one (min_le_left 1 x)⟩

theorem hslToRgb_bounds (h s l : ℚ) (hs0 : 0 ≤ s) (hs1 : s ≤ 1) (hl0 : 0 ≤ l)
    (hl1 : l ≤ 1) :
    (0 ≤ (hslToRgb h s l).1 ∧ (hslToRgb h s l).1 ≤ 1) ∧
      (0 ≤ (hslToRgb h s l).2.1 ∧ (hslToRgb h s l).2.1 ≤ 1) ∧
      (0 ≤ (hslToRgb h s l).2.2 ∧ (hslToRgb h s l).2.2 ≤ 1) := by
  unfold hslToRgb
  dsimp only
  set hn := normalizeHue h with hhn
  set cc := (1 - |2 * l - 1|) * s with hcc
  set hp := hn / 60 with hhp
  set u := hp - 2 * (⌊hp / 2⌋ : ℚ) with hu
  have habs : |2 * l - 1| ≤ 1 := abs_le.mpr ⟨by linarith, by linarith⟩
  have hfnn : (0 : ℚ) ≤ 1 - |2 * l - 1| := by linarith
  have hc0 : 0 ≤ cc := mul_nonneg hfnn hs0
  have hcf : cc ≤ 1 - |2 * l - 1| := by
    rw [hcc]
    exact mul_le_of_le_one_right hfnn hs1
  have h2l : 1 - |2 * l - 1| ≤ 2 * l := by
    have := neg_le_abs (2 * l - 1)
    linarith
  have h2l' : 1 - |2 * l - 1| ≤ 2 - 2 * l := by
    have := le_abs_self (2 * l - 1)
    linarith
  have hu0 : 0 ≤ u := by
    rw [hu]
    have := Int.floor_le (hp / 2)
    linarith
  have hu2 : u < 2 := by
    rw [hu]
    have := Int.lt_floor_add_one (hp / 2)
    linarith
  have hfac0 : 0 ≤ 1 - |u - 1| := by
    have : |u - 1| ≤ 1 := abs_le.mpr ⟨by linarith, by linarith⟩
    linarith
  have hfac1 : 1 - |u - 1| ≤ 1 := by
    have := abs_nonneg (u - 1)
    linarith
  have hx0 : 0 ≤ cc * (1 - |u - 1|) := mul_nonneg hc0 hfac0
  have hxc : cc * (1 - |u - 1|) ≤ cc := mul_le_of_le_one_right hc0 hfac1
  refine ⟨⟨?_, ?_⟩, ⟨?_, ?_⟩, ?_, ?_⟩ <;>
    · split_ifs <;> dsimp only <;> linarith

theorem hexVal_le (c : Char) (h : isHexDigit c = true) : hexVal c ≤ 15 := by
  simp only [isHexDigit, isDigit, Bool.or_eq_true, Bool.and_eq_true, decide_eq_true_eq] at h
  unfold hexVal digitVal
  simp only [isDigit, Bool.and_eq_true, decide_eq_true_eq]
  split_ifs <;> omega

theorem hexChannel_bounds (v : ℕ) (hv : v ≤ 255) : 0 ≤ (v : ℚ) / 255 ∧ (v : ℚ) / 255 ≤ 1 := by
  constructor
  · positivity
  · rw [div_le_one (by norm_num)]
    exact_mod_cast hv

theorem chanDiv255_bounds (x : ℚ) (h0 : 0 ≤ x) (h255 : x ≤ 255) :
    0 ≤ x / 255 ∧ x / 255 ≤ 1 := by
  constructor
  · positivity
  · rw [div_le_one (by norm_num)]
    exact h255

theorem parseHexDigits_bounds (ds : List Char) (col : JsColor)
    (h : parseHexDigits ds = some col) :
    ∃ r g b : ℚ, col = .rgb r g b ∧ (0 ≤ r ∧ r ≤ 1) ∧ (0 ≤ g ∧ g ≤ 1) ∧ (0 ≤ b ∧ b ≤ 1) := by
  unfold parseHexDigits at h
  split_ifs at h with hall
  have hmem : ∀ c ∈ ds, isHexDigit c = true := fun c hc => List.all_eq_true.mp hall c hc
  have hv15 : ∀ c ∈ ds, ((hexVal c : ℚ)) ≤ 15 := by
    intro c hc
    exact_mod_cast hexVal_le c (hmem c hc)
  split at h
  · rename_i r g b
    obtain rfl : _ = col := Option.some.inj h
    have hr := hv15 r (by simp)
    have hg := hv15 g (by simp)
    have hb := hv15 b (by simp)
    exact ⟨_, _, _, rfl, chanDiv255_bounds _ (by positivity) (by linarith),
      chanDiv255_bounds _ (by positivity) (by linarith),
      chanDiv255_bounds _ (by positivity) (by linarith)⟩
  · rename_i r g b _a
    obtain rfl : _ = col := Option.some.inj h
    have hr := hv15 r (by simp)
    have hg := hv15 g (by simp)
    have hb := hv15 b (by simp)
    exact ⟨_, _, _, rfl, chanDiv255_bounds _ (by positivity) (by linarith),
      chanDiv255_bounds _ (by positivity) (by linarith),
      chanDiv255_bounds _ (by positivity) (by linarith)⟩
  · rename_i r1 r2 g1 g2 b1 b2
    obtain rfl : _ = col := Option.some.inj h
    have hr1 := hv15 r1 (by simp)
    have hr2 := hv15 r2 (by simp)
    have hg1 := hv15 g1 (by simp)
    have hg2 := hv15 g2 (by simp)
    have hb1 := hv15 b1 (by simp)
    have hb2 := hv15 b2 (by simp)
    exact ⟨_, _, _, rfl, chanDiv255_bounds _ (by positivity) (by linarith),
      chanDiv255_bounds _ (by positivity) (by linarith),
      chanDiv255_bounds _ (by positivity) (by linarith)⟩
  · rename_i r1 r2 g1 g2 b1 b2 _a1 _a2
    obtain rfl : _ = col := Option.some.inj h
    have hr1 := hv15 r1 (by simp)
    have hr2 := hv15 r2 (by simp)
    have hg1 := hv15 g1 (by simp)
    have hg2 := hv15 g2 (by simp)
    have hb1 := hv15 b1 (by simp)
    have hb2 := hv15 b2 (by simp)
    exact ⟨_, _, _, rfl, chanDiv255_bounds _ (by positivity) (by linarith),
      chanDiv255_bounds _ (by positivity) (by linarith),
      chanDiv255_bounds _ (by positivity) (by linarith)⟩
  · exact Option.noConfusion h

theorem parseHslArgs_shape (inner : List Char) (col : JsColor)
    (h : parseHslArgs inner = some col) :
    ∃ hh ss ll : ℚ, col = .hsl hh (clamp01 ss) (clamp01 ll) := by
  unfold parseHslArgs at h
  split at h
  · split at h
    · exact ⟨_, _, _, (Option.some.inj h).symm⟩
    · exact Option.noConfusion h
  · split at h
    · exact ⟨_, _, _, (Option.some.inj h).symm⟩
    · exact Option.noConfusion h
  · exact Option.noConfusion h

theorem rgbChan_bounds (t : List Char) (q : ℚ) (h : rgbChan t = some q) :
    0 ≤ q ∧ q ≤ 1 := by
  unfold rgbChan at h
  split at h
  · obtain rfl : _ = q := Option.some.inj h
    exact clamp01_bounds _
  · cases hn : numTok t with
    | none => rw [hn] at h; exact Option.noConfusion h
    | some n =>
        rw [hn] at h
        obtain rfl : _ = q := Option.some.inj h
        exact clamp01_bounds _

theorem parseRgbArgs_bounds (inner : List Char) (col : JsColor)
    (h : parseRgbArgs inner = some col) :
    ∃ r g b : ℚ, col = .rgb r g b ∧ (0 ≤ r ∧ r ≤ 1) ∧ (0 ≤ g ∧ g ≤ 1) ∧
      (0 ≤ b ∧ b ≤ 1) := by
  unfold parseRgbArgs at h
  split at h
  · split at h
    · obtain rfl : _ = col := Option.some.inj h
      exact ⟨_, _, _, rfl, rgbChan_bounds _ _ (by assumption),
        rgbChan_bounds _ _ (by assumption), rgbChan_bounds _ _ (by assumption)⟩
    · exact Option.noConfusion h
  · split at h
    · obtain rfl : _ = col := Option.some.inj h
      exact ⟨_, _, _, rfl, rgbChan_bounds _ _ (by assumption),
        rgbChan_bounds _ _ (by assumption), rgbChan_bounds _ _ (by assumption)⟩
    · exact Option.noConfusion h
  · exact Option.noConfusion h

theorem parseColor_channels (s : String) (col : JsColor) (h : parseColor s = some col) :
    (0 ≤ (toRgbChannels col).1 ∧ (toRgbChannels col).1 ≤ 1) ∧
      (0 ≤ (toRgbChannels col).2.1 ∧ (toRgbChannels col).2.1 ≤ 1) ∧
      (0 ≤ (toRgbChannels col).2.2 ∧ (toRgbChannels col).2.2 ≤ 1) := by
  have hslCase : ∀ inner, parseHslArgs inner = some col →
      (0 ≤ (toRgbChannels col).1 ∧ (toRgbChannels col).1 ≤ 1) ∧
        (0 ≤ (toRgbChannels col).2.1 ∧ (toRgbChannels col).2.1 ≤ 1) ∧
        (0 ≤ (toRgbChannels col).2.2 ∧ (toRgbChannels col).2.2 ≤ 1) := by
    intro inner hi
    obtain ⟨hh, ss, ll, rfl⟩ := parseHslArgs_shape _ _ hi
    have hb := hslToRgb_bounds hh (clamp01 ss) (clamp01 ll) (clamp01_bounds ss).1
      (clamp01_bounds ss).2 (clamp01_bounds ll).1 (clamp01_bounds ll).2
    simpa [toRgbChannels] using hb
  have rgbCase : ∀ inner, parseRgbArgs inner = some col →
      (0 ≤ (toRgbChannels col).1 ∧ (toRgbChannels col).1 ≤ 1) ∧
        (0 ≤ (toRgbChannels col).2.1 ∧ (toRgbChannels col).2.1 ≤ 1) ∧
        (0 ≤ (toRgbChannels col).2.2 ∧ (toRgbChannels col).2.2 ≤ 1) := by
    intro inner hi
    obtain ⟨r, g, b, rfl, hb⟩ := parseRgbArgs_bounds _ _ hi
    simpa [toRgbChannels] using hb
  unfold parseColor at h
  split at h
  · obtain ⟨r, g, b, rfl, hb⟩ := parseHexDigits_bounds _ _ h
    simpa [toRgbChannels] using hb
  · split at h
    · exact hslCase _ h
    · split at h
      · exact hslCase _ h
      · split at h
        · exact rgbCase _ h
        · split at h
          · exact rgbCase _ h
          · exact Option.noConfusion h

theorem getLuminance_bounds (s : String) : 0 ≤ getLuminance s ∧ getLuminance s ≤ 1 := by
  unfold getLuminance
  split
  · norm_num
  · rename_i col hcol
    obtain ⟨⟨h1, h2⟩, ⟨h3, h4⟩, h5, h6⟩ := parseColor_channels s col hcol
    have s1 := srgbLin_bounds _ h1 h2
    have s2 := srgbLin_bounds _ h3 h4
    have s3 := srgbLin_bounds _ h5 h6
    dsimp only
    constructor
    · nlinarith [s1.1, s2.1, s3.1]
    · nlinarith [s1.2, s2.2, s3.2, s1.1, s2.1, s3.1]

theorem getLuminance_black : getLuminance "#000000" = 0 := by
  with_unfolding_all decide

theorem getLuminance_white : getLuminance "#ffffff" = 1 := by
  unfold getLuminance
  rw [show parseColor "#ffffff" = some (.rgb 1 1 1) from by with_unfolding_all decide]
  dsimp only [toRgbChannels]
  rw [srgbLin_one]
  norm_num

/-- C9: `getContrastRatio "#000000" "#ffffff"` is the string `"21.00"`;
`getContrastRatio c c = "1.00"` for every valid color `c`; and for every
pair of inputs the result is `((max L1 L2 + 0.05) / (min L1 L2 + 0.05))`
fixed to two decimals — where `L1`, `L2` are the WCAG relative luminances
(`0` for unparseable input) — a ratio that always lies in `[1, 21]`, as
does its two-decimal rounding (the number the returned string denotes). -/
theorem claim_C9 :
    getContrastRatio "#000000" "#ffffff" = "21.00" ∧
    (∀ c : String, (parseColor c).isSome → getContrastRatio c c = "1.00") ∧
    (∀ c1 c2 : String,
      getContrastRatio c1 c2 = toFixed2 (contrastRatioValue c1 c2) ∧
      1 ≤ contrastRatioValue c1 c2 ∧
      contrastRatioValue c1 c2 ≤ 21 ∧
      1 ≤ ((jsRoundHalfAway (contrastRatioValue c1 c2 * 100) : ℚ) / 100) ∧
      ((jsRoundHalfAway (contrastRatioValue c1 c2 * 100) : ℚ) / 100) ≤ 21) := by
  have hbounds : ∀ c1 c2 : String,
      1 ≤ contrastRatioValue c1 c2 ∧ contrastRatioValue c1 c2 ≤ 21 := by
    intro c1 c2
    obtain ⟨ha0, ha1⟩ := getLuminance_bounds c1
    obtain ⟨hb0, hb1⟩ := getLuminance_bounds c2
    have hmin0 : 0 ≤ min (getLuminance c1) (getLuminance c2) := le_min ha0 hb0
    have hmax1 : max (getLuminance c1) (getLuminance c2) ≤ 1 := max_le ha1 hb1
    have hle : min (getLuminance c1) (getLuminance c2) ≤
        max (getLuminance c1) (getLuminance c2) :=
      le_trans (min_le_left _ _) (le_max_left _ _)
    have hpos : (0 : ℚ) < min (getLuminance c1) (getLuminance c2) + 0.05 := by linarith
    unfold contrastRatioValue
    constructor
    · rw [le_div_iff hpos]
      linarith
    · rw [div_le_iff hpos]
      linarith
  refine ⟨?_, ?_, ?_⟩
  · unfold getContrastRatio
    rw [getLuminance_black, getLuminance_white]
    dsimp only
    rw [show (max (0 : ℚ) 1 + 0.05) / (min (0 : ℚ) 1 + 0.05) = 21 by norm_num]
    with_unfolding_all decide
  · intro c _
    unfold getContrastRatio
    dsimp only
    rw [max_self, min_self]
    rw [div_self (by have := (getLuminance_bounds c).1; positivity)]
    with_unfolding_all decide
  · intro c1 c2
    obtain ⟨h1, h21⟩ := hbounds c1 c2
    have hround1 : (100 : ℤ) ≤ jsRoundHalfAway (contrastRatioValue c1 c2 * 100) := by
      unfold jsRoundHalfAway
      rw [if_pos (by nlinarith)]
      rw [Int.le_floor]
      push_cast
      nlinarith
    have hround2 : jsRoundHalfAway (contrastRatioValue c1 c2 * 100) ≤ 2100 := by
      unfold jsRoundHalfAway
      rw [if_pos (by nlinarith)]
      have hf : ((⌊contrastRatioValue c1 c2 * 100 + 1 / 2⌋ : ℤ) : ℚ) ≤
          contrastRatioValue c1 c2 * 100 + 1 / 2 := Int.floor_le _
      have h2 : ((⌊contrastRatioValue c1 c2 * 100 + 1 / 2⌋ : ℤ) : ℚ) < 2101 := by nlinarith
      have h3 : (⌊contrastRatioValue c1 c2 * 100 + 1 / 2⌋ : ℤ) < 2101 := by exact_mod_cast h2
      omega
    refine ⟨rfl, h1, h21, ?_, ?_⟩
    · rw [le_div_iff (by norm_num : (0 : ℚ) < 100)]
      have h := hround1
      have : ((100 : ℤ) : ℚ) ≤ (jsRoundHalfAway (contrastRatioValue c1 c2 * 100) : ℚ) := by
        exact_mod_cast h
      push_cast at this
      linarith
    · rw [div_le_iff (by norm_num : (0 : ℚ) < 100)]
      have h := hround2
      have : ((jsRoundHalfAway (contrastRatioValue c1 c2 * 100) : ℤ) : ℚ) ≤
          ((2100 : ℤ) : ℚ) := by exact_mod_cast h
      push_cast at this
      linarith

/-- Witness for C9's quantified parts at concrete colors. -/
theorem claim_C9_witness :
    getContrastRatio "#ff0000" "#ff0000" = "1.00" ∧
      getContrastRatio "#ff0000" "#00ff00" =
        toFixed2 (contrastRatioValue "#ff0000" "#00ff00") :=
  ⟨claim_C9.2.1 "#ff0000" (by with_unfolding_all decide),
    (claim_C9.2.2 "#ff0000" "#00ff00").1⟩

/-! ### Preset resolution (claim C5) -/

theorem jsMerge_keys (a b : TokenSet) (h : ∀ p ∈ b, (jsGet a p.1).isSome) :
    (jsMerge a b).map Prod.fst = a.map Prod.fst := by
  unfold jsMerge
  rw [List.map_append]
  have hfil : b.filter (fun p => (jsGet a p.1).isNone) = [] := by
    rw [List.filter_eq_nil]
    intro p hp
    have := h p hp
    simp only [Option.isNone_iff_eq_none, Bool.not_eq_true]
    intro hc
    rw [Option.isSome_iff_ne_none] at this
    exact this hc
  rw [hfil]
  simp only [List.map_nil, List.append_nil, List.map_map]
  apply List.map_congr_left
  intro p _
  obtain ⟨k, v⟩ := p
  simp only [Function.comp]
  cases hb : jsGet b k <;> simp [hb]

theorem getPresetThemeStyles_merge (name : String) (p : ThemePreset)
    (h : presetLookup name = some p) :
    getPresetThemeStyles name =
      { light := jsMerge defaultThemeState.styles.light (p.light.getD [])
        dark := jsMerge defaultThemeState.styles.dark (p.dark.getD []) } := by
  have hnd : name ≠ "default" := by
    intro hc
    subst hc
    rw [show presetLookup "default" = none from rfl] at h
    exact Option.noConfusion h
  unfold getPresetThemeStyles
  rw [if_neg hnd, h]

/-- C5: for every name, `getPresetThemeStyles` returns styles whose light
and dark key sets equal the corresponding default token set's key set (in
particular a superset); `"default"` and names absent from the catalog
return the default styles verbatim; and every catalog name returns the
per-mode right-biased shallow merge of the defaults with the preset's
partial sets (preset values win, defaults fill the gaps). -/
theorem claim_C5 (name : String) :
    ((getPresetThemeStyles name).light.map Prod.fst =
        defaultThemeState.styles.light.map Prod.fst ∧
      (getPresetThemeStyles name).dark.map Prod.fst =
        defaultThemeState.styles.dark.map Prod.fst) ∧
    (name = "default" → getPresetThemeStyles name = defaultThemeState.styles) ∧
    (presetLookup name = none → getPresetThemeStyles name = defaultThemeState.styles) ∧
    (∀ p, presetLookup name = some p →
      getPresetThemeStyles name =
        { light := jsMerge defaultThemeState.styles.light (p.light.getD [])
          dark := jsMerge defaultThemeState.styles.dark (p.dark.getD []) }) := by
  refine ⟨?_, ?_, ?_, fun p hp => getPresetThemeStyles_merge name p hp⟩
  · cases hp : presetLookup name with
    | none =>
        have : getPresetThemeStyles name = defaultThemeState.styles := by
          unfold getPresetThemeStyles
          split_ifs with hd
          · rfl
          · rw [hp]
        rw [this]
        exact ⟨rfl, rfl⟩
    | some p =>
        rw [getPresetThemeStyles_merge name p hp]
        obtain ⟨q, hqmem, rfl⟩ : ∃ q ∈ presets, q.2 = p := by
          unfold presetLookup at hp
          cases hf : presets.find? (fun r => r.1 == name) with
          | none => rw [hf] at hp; exact Option.noConfusion hp
          | some q =>
              rw [hf] at hp
              simp only [Option.map_some'] at hp
              exact ⟨q, List.mem_of_find?_eq_some hf, Option.some.inj hp⟩
        simp only [presets, List.mem_cons, List.not_mem_nil, or_false] at hqmem
        rcases hqmem with rfl | rfl | rfl | rfl | rfl | rfl | rfl <;>
          exact ⟨jsMerge_keys _ _ (by decide), jsMerge_keys _ _ (by decide)⟩
  · intro hd
    unfold getPresetThemeStyles
    rw [if_pos hd]
  · intro hn
    unfold getPresetThemeStyles
    split_ifs with hd
    · rfl
    · rw [hn]

/-- Witness for C5 at concrete names: `"default"`, an absent name, and the
catalog name `"bubblegum"`. -/
theorem claim_C5_witness :
    getPresetThemeStyles "default" = defaultThemeState.styles ∧
      getPresetThemeStyles "nonexistent-abc" = defaultThemeState.styles ∧
      getPresetThemeStyles "bubblegum" =
        { light := jsMerge defaultThemeState.styles.light (preset_bubblegum.light.getD [])
          dark := jsMerge defaultThemeState.styles.dark (preset_bubblegum.dark.getD []) } ∧
      (getPresetThemeStyles "bubblegum").light.map Prod.fst =
        defaultThemeState.styles.light.map Prod.fst :=
  ⟨(claim_C5 "default").2.1 rfl, (claim_C5 "nonexistent-abc").2.2.1 rfl,
    (claim_C5 "bubblegum").2.2.2 preset_bubblegum rfl, (claim_C5 "bubblegum").1.1⟩

/-! ## Claim C7: the hex import round-trip -/

-- Batch 1: list utilities

theorem takeWhile_append_all {p : Char → Bool} (a b : List Char)
    (h : ∀ c ∈ a, p c = true) :
    (a ++ b).takeWhile p = a ++ b.takeWhile p := by
  induction a with
  | nil => rfl
  | cons c a ih =>
      have hc := h c (List.mem_cons_self _ _)
      simp [List.cons_append, List.takeWhile_cons, hc,
        ih (fun d hd => h d (List.mem_cons_of_mem _ hd))]

theorem dropWhile_append_all {p : Char → Bool} (a b : List Char)
    (h : ∀ c ∈ a, p c = true) :
    (a ++ b).dropWhile p = b.dropWhile p := by
  induction a with
  | nil => rfl
  | cons c a ih =>
      simp only [List.cons_append, List.dropWhile_cons, h c (List.mem_cons_self _ _)]
      exact ih (fun d hd => h d (List.mem_cons_of_mem _ hd))

theorem dropWhile_all_false {p : Char → Bool} (l : List Char)
    (h : ∀ c ∈ l, p c = false) : l.dropWhile p = l := by
  cases l with
  | nil => rfl
  | cons c r => simp [List.dropWhile_cons, h c (List.mem_cons_self _ _)]

theorem jsTrim_all_nonws (l : List Char) (h : ∀ c ∈ l, isJsWs c = false) :
    jsTrim l = l := by
  unfold jsTrim
  rw [dropWhile_all_false l h, dropWhile_all_false _ (fun c hc => h c (List.mem_reverse.mp hc)),
    List.reverse_reverse]

theorem renderAll_cons (kv : String × String) (ds : List (String × String)) :
    renderAll (kv :: ds) = renderLine kv ++ renderAll ds := by
  simp [renderAll]

theorem renderAll_ends (ds : List (String × String)) (h : ds ≠ []) :
    ∃ pre, renderAll ds = pre ++ [';'] := by
  induction ds with
  | nil => exact absurd rfl h
  | cons kv ds ih =>
      cases ds with
      | nil =>
          refine ⟨'\n' :: ' ' :: ' ' :: '-' :: '-' :: (kv.1.data ++ ':' :: ' ' :: kv.2.data), ?_⟩
          simp [renderAll, renderLine]
      | cons d ds' =>
          obtain ⟨pre, hp⟩ := ih (by simp)
          exact ⟨renderLine kv ++ pre, by rw [renderAll_cons, hp, List.append_assoc]⟩

theorem scanInput_cons_eq (kv : String × String) (ds : List (String × String)) :
    scanInput (kv :: ds) =
      '-' :: '-' :: (kv.1.data ++ ':' :: ' ' :: (kv.2.data ++ ';' :: renderAll ds)) := by
  simp [scanInput]

theorem scanInput_ends (kv : String × String) (ds : List (String × String)) :
    ∃ pre, scanInput (kv :: ds) = pre ++ [';'] := by
  cases ds with
  | nil =>
      refine ⟨'-' :: '-' :: (kv.1.data ++ ':' :: ' ' :: kv.2.data), ?_⟩
      simp [scanInput, renderAll]
  | cons d ds' =>
      obtain ⟨pre, hp⟩ := renderAll_ends (d :: ds') (by simp)
      refine ⟨'-' :: '-' :: (kv.1.data ++ ':' :: ' ' :: (kv.2.data ++ ';' :: pre)), ?_⟩
      rw [scanInput_cons_eq, hp]
      simp

theorem jsTrim_scanInput (kv : String × String) (ds : List (String × String)) :
    jsTrim (renderAll (kv :: ds) ++ ['\n']) = scanInput (kv :: ds) := by
  have hshape : renderAll (kv :: ds) ++ ['\n'] =
      '\n' :: ' ' :: ' ' :: (scanInput (kv :: ds) ++ ['\n']) := by
    rw [renderAll_cons, scanInput_cons_eq]
    simp [renderLine]
  have hws1 : isJsWs '\n' = true := by decide
  have hws2 : isJsWs ' ' = true := by decide
  have hws4 : ¬ isJsWs ';' = true := by decide
  rw [hshape]
  unfold jsTrim
  rw [List.dropWhile_cons, if_pos hws1, List.dropWhile_cons, if_pos hws2,
    List.dropWhile_cons, if_pos hws2]
  obtain ⟨pre, hp⟩ := scanInput_ends kv ds
  rw [hp]
  have h1 : ((pre ++ [';']) ++ ['\n']).dropWhile isJsWs = (pre ++ [';']) ++ ['\n'] := by
    have : pre ++ [';'] = scanInput (kv :: ds) := hp.symm
    rw [scanInput_cons_eq] at this
    cases pre with
    | nil => simp at this
    | cons c p =>
        have hc : c = '-' := by
          have := congrArg (fun l => l.head?) this
          simpa using this
        subst hc
        simp [List.dropWhile_cons, isJsWs]
  rw [h1]
  rw [show ((pre ++ [';']) ++ ['\n']).reverse = '\n' :: ';' :: pre.reverse by simp]
  rw [List.dropWhile_cons, if_pos hws1, List.dropWhile_cons, if_neg hws4]
  simp

-- Batch 2: findDecls structure

theorem findDecls_nil : findDecls [] = [] := by
  rw [findDecls]

theorem findDecls_skip (c : Char) (l : List Char) (h : c ≠ '-') :
    findDecls (c :: l) = findDecls l := by
  cases l with
  | nil => rw [findDecls, findDecls]
  | cons d r =>
      rw [findDecls.eq_def]
      split
      · simp_all
      · simp_all
      · rename_i rest heq
        exact absurd (List.cons.inj heq).1 h
      · rename_i x rest heq
        rw [(List.cons.inj heq).2]

theorem findDecls_match (k v : String) (tail : List Char)
    (hk1 : k.data ≠ []) (hk2 : ∀ c ∈ k.data, c ≠ ':')
    (hv : ∀ c ∈ v.data, c ≠ ';') :
    findDecls ('-' :: '-' :: (k.data ++ ':' :: ' ' :: (v.data ++ ';' :: tail))) =
      ('-' :: '-' :: (k.data ++ ':' :: ' ' :: v.data)) :: findDecls (';' :: tail) := by
  rw [findDecls.eq_def]
  split
  · simp_all
  · rename_i x heq
    exact absurd (congrArg List.length heq) (by simp)
  · rename_i rest heq
    have hrest : rest = k.data ++ ':' :: ' ' :: (v.data ++ ';' :: tail) :=
      (((List.cons.inj heq).2 |> List.cons.inj).2).symm
    subst hrest
    have hname : (k.data ++ ':' :: ' ' :: (v.data ++ ';' :: tail)).takeWhile
        (fun c => decide (c ≠ ':')) = k.data := by
      rw [takeWhile_append_all _ _ (by intro c hc; simp [hk2 c hc])]
      simp [List.takeWhile_cons]
    simp only [hname]
    rw [if_neg (by simpa using hk1)]
    have hdrop : List.drop k.data.length (k.data ++ ':' :: ' ' :: (v.data ++ ';' :: tail)) =
        ':' :: ' ' :: (v.data ++ ';' :: tail) := List.drop_left _ _
    split
    · rename_i rest2 heq2
      rw [hname, hdrop] at heq2
      have hrest2 : rest2 = ' ' :: (v.data ++ ';' :: tail) := ((List.cons.inj heq2).2).symm
      subst hrest2
      have hval : (' ' :: (v.data ++ ';' :: tail)).takeWhile (fun c => decide (c ≠ ';')) =
          ' ' :: v.data := by
        rw [List.takeWhile_cons]
        simp only [show (decide ((' ' : Char) ≠ ';')) = true by decide, if_true]
        rw [takeWhile_append_all _ _ (by intro c hc; simp [hv c hc])]
        simp [List.takeWhile_cons]
      simp only [hval]
      rw [if_neg (by simp)]
      have hdrop2 : List.drop (' ' :: v.data).length (' ' :: (v.data ++ ';' :: tail)) =
          ';' :: tail := by
        simp only [List.length_cons, List.drop_succ_cons]
        exact List.drop_left _ _
      rw [hdrop2]
    · rename_i x hne
      rw [hname, hdrop] at hne
      exact (hne (' ' :: (v.data ++ ';' :: tail)) rfl).elim
  · rename_i a hd rest hnil hne heq
    obtain ⟨h1, h2⟩ := List.cons.inj heq
    exact ((hne _ h1.symm h2.symm)).elim

theorem renderAll_cons_eq (kv : String × String) (ds : List (String × String)) :
    renderAll (kv :: ds) = '\n' :: ' ' :: ' ' :: scanInput (kv :: ds) := by
  rw [renderAll_cons, scanInput_cons_eq]
  simp [renderLine]

theorem findDecls_renderAll_eq (ds : List (String × String)) :
    findDecls (renderAll ds) = findDecls (scanInput ds) := by
  cases ds with
  | nil => rfl
  | cons kv ds =>
      rw [renderAll_cons_eq,
        findDecls_skip _ _ (by decide), findDecls_skip _ _ (by decide),
        findDecls_skip _ _ (by decide)]

theorem findDecls_scanInput (ds : List (String × String))
    (h : ∀ kv ∈ ds, kv.1.data ≠ [] ∧ (∀ c ∈ kv.1.data, c ≠ ':') ∧
      (∀ c ∈ kv.2.data, c ≠ ';')) :
    findDecls (scanInput ds) = ds.map declMatch := by
  induction ds with
  | nil => exact findDecls_nil
  | cons kv ds ih =>
      obtain ⟨h1, h2, h3⟩ := h kv (List.mem_cons_self _ _)
      rw [scanInput_cons_eq, findDecls_match kv.1 kv.2 (renderAll ds) h1 h2 h3,
        findDecls_skip _ _ (by decide), findDecls_renderAll_eq,
        ih (fun p hp => h p (List.mem_cons_of_mem _ hp))]
      rfl

-- Batch 3: block extraction

theorem matchBlockAt_exact (sel content rest : List Char)
    (hne : content ≠ []) (hc : ∀ c ∈ content, c ≠ '\x7d') :
    matchBlockAt sel (sel ++ ' ' :: '\x7b' :: (content ++ '\x7d' :: rest)) = some content := by
  unfold matchBlockAt
  rw [if_pos (by simpa using List.isPrefixOf_iff_prefix.mpr (List.prefix_append _ _))]
  rw [List.drop_left]
  rw [List.dropWhile_cons, if_pos (by decide), List.dropWhile_cons, if_neg (by decide)]
  have htake : (content ++ '\x7d' :: rest).takeWhile (fun c => decide (c ≠ '\x7d')) = content := by
    rw [takeWhile_append_all _ _ (by intro c hcm; simp [hc c hcm])]
    simp [List.takeWhile_cons]
  simp only [htake]
  rw [if_neg (by simpa using hne), List.drop_left]
  rfl

theorem findBlock_cons (sel : List Char) (c : Char) (rest : List Char) :
    findBlock sel (c :: rest) =
      match matchBlockAt sel (c :: rest) with
      | some content => some content
      | none => findBlock sel rest := rfl

theorem findBlock_append_skip (sel a b : List Char)
    (H : ∀ v, v <:+ a → v ≠ [] → matchBlockAt sel (v ++ b) = none) :
    findBlock sel (a ++ b) = findBlock sel b := by
  induction a with
  | nil => rfl
  | cons c a ih =>
      have hm := H (c :: a) (List.suffix_refl _) (by simp)
      simp only [List.cons_append] at hm
      rw [List.cons_append, findBlock_cons, hm]
      exact ih (fun v hv hne => H v (hv.trans (List.suffix_cons _ _)) hne)

theorem suffix_append_cases {α : Type} (v a b : List α) (h : v <:+ a ++ b) :
    v <:+ b ∨ ∃ a', a' <:+ a ∧ a' ≠ [] ∧ v = a' ++ b := by
  obtain ⟨p, hp⟩ := h
  rcases List.append_eq_append_iff.mp hp with ⟨a', ha1, ha2⟩ | ⟨c', hc1, hc2⟩
  · cases a' with
    | nil => left; exact ⟨[], by simpa using ha2⟩
    | cons x xs => right; exact ⟨x :: xs, ⟨p, ha1.symm⟩, by simp, ha2⟩
  · left; exact ⟨c', hc2.symm⟩

-- Batch 4: no spurious .dark match inside or straddling the :root block

theorem dropWhile_head_ne_brace (w d : List Char) (hw : '\x7b' ∉ w) :
    ((w ++ '.' :: d).dropWhile isJsWs).head? ≠ some '\x7b' := by
  induction w with
  | nil =>
      rw [List.nil_append, List.dropWhile_cons, if_neg (by decide)]
      simp
  | cons c w ih =>
      rw [List.cons_append, List.dropWhile_cons]
      by_cases hws : isJsWs c = true
      · rw [if_pos hws]
        exact ih (fun hm => hw (List.mem_cons_of_mem _ hm))
      · rw [if_neg hws]
        have : c ≠ '\x7b' := fun h => hw (h ▸ List.mem_cons_self _ _)
        simp [this]

theorem matchBlockAt_dark_none (body v bb : List Char)
    (hbody : '\x7b' ∉ body)
    (hv : v <:+ [':', 'r', 'o', 'o', 't', ' ', '\x7b'] ++
      (body ++ ['\n', '\x7d', '\n', '\n']))
    (hne : v ≠ []) :
    matchBlockAt ['.', 'd', 'a', 'r', 'k']
      (v ++ '.' :: 'd' :: 'a' :: 'r' :: 'k' :: bb) = none := by
  by_cases hpre : (['.', 'd', 'a', 'r', 'k'] : List Char).isPrefixOf
      (v ++ '.' :: 'd' :: 'a' :: 'r' :: 'k' :: bb) = true
  case neg =>
    unfold matchBlockAt
    rw [if_neg hpre]
  case pos =>
    obtain ⟨c, v', rfl⟩ : ∃ c v', v = c :: v' := by
      cases v with
      | nil => exact absurd rfl hne
      | cons c v' => exact ⟨c, v', rfl⟩
    have hc : c = '.' := by
      obtain ⟨t, ht⟩ := List.isPrefixOf_iff_prefix.mp hpre
      exact ((List.cons.inj ht).1).symm
    subst hc
    rcases suffix_append_cases _ _ _ hv with h1 | ⟨a', ha1, ha2, ha3⟩
    · rcases suffix_append_cases _ _ _ h1 with h2 | ⟨b', hb1, hb2, hb3⟩
      · have : '.' ∈ (['\n', '\x7d', '\n', '\n'] : List Char) :=
          h2.subset (List.mem_cons_self _ _)
        simp at this
      · -- v = b' ++ T with b' a nonempty suffix of body
        have hlen : 5 ≤ ('.' :: v').length := by
          have h := congrArg List.length hb3
          have hb : 0 < b'.length := List.length_pos.mpr hb2
          simp only [List.length_cons, List.length_append] at h
          simp only [List.length_cons]
          simp at h
          omega
        have hnob : '\x7b' ∉ ('.' :: v') := by
          intro hm
          rw [hb3] at hm
          rcases List.mem_append.mp hm with hm1 | hm2
          · exact hbody (hb1.subset hm1)
          · simp at hm2
        unfold matchBlockAt
        rw [if_pos hpre]
        have hdrop : (('.' :: v') ++ '.' :: 'd' :: 'a' :: 'r' :: 'k' :: bb).drop
            (['.', 'd', 'a', 'r', 'k'] : List Char).length =
            (('.' :: v').drop 5) ++ '.' :: 'd' :: 'a' :: 'r' :: 'k' :: bb := by
          rw [show (['.', 'd', 'a', 'r', 'k'] : List Char).length = 5 from rfl]
          exact List.drop_append_of_le_length hlen
        rw [hdrop]
        have hnob2 : '\x7b' ∉ ('.' :: v').drop 5 :=
          fun hm => hnob (List.drop_subset _ _ hm)
        have hhead := dropWhile_head_ne_brace (('.' :: v').drop 5)
          ('d' :: 'a' :: 'r' :: 'k' :: bb) hnob2
        dsimp only
        split
        · rename_i rest2 heq
          rw [heq] at hhead
          simp at hhead
        · rfl
    · cases a' with
      | nil => exact absurd rfl ha2
      | cons x xs =>
          have hx : x = '.' := by
            have := (List.cons.inj (by simpa using ha3)).1
            exact this.symm
          subst hx
          have : '.' ∈ ([':', 'r', 'o', 'o', 't', ' ', '\x7b'] : List Char) :=
            ha1.subset (List.mem_cons_self _ _)
          simp at this

-- Batch 5: the generator emits exactly the rendered genDecls

theorem data_foldl_append (l : List String) (s : String) :
    (l.foldl (fun a b => a ++ b) s).data = s.data ++ (l.map String.data).join := by
  induction l generalizing s with
  | nil => simp
  | cons a l ih => simp [ih, String.data_append]

theorem data_join (l : List String) :
    (String.join l).data = (l.map String.data).join := by
  have h := data_foldl_append l ""
  simpa [String.join] using h

theorem cssLine_data (k v : String) :
    (cssLine k v).data = renderLine (k, v) := by
  simp [cssLine, renderLine, String.data_append,
    show ("\n  --" : String).data = ['\n', ' ', ' ', '-', '-'] from rfl,
    show (": " : String).data = [':', ' '] from rfl,
    show ((";" : String)).data = [';'] from rfl]

theorem renderAll_append (a b : List (String × String)) :
    renderAll (a ++ b) = renderAll a ++ renderAll b := by
  simp [renderAll]

theorem generateThemeVariables_data (styles : ThemeStyles) (mode : Mode)
    (fc : String → String) :
    (generateThemeVariables styles mode fc).data =
      (if mode = .dark then (".dark" : String) else ":root").data ++
        ' ' :: '\x7b' :: (renderAll (genDecls styles mode fc) ++ ['\n', '\x7d']) := by
  have hfun : ∀ g : String → String,
      (String.data ∘ fun k => cssLine k (g k)) = (renderLine ∘ fun k => (k, g k)) :=
    fun g => funext (fun k => cssLine_data k (g k))
  unfold generateThemeVariables genDecls generateColorVariables generateFontVariables
    generateShadowVariables
  split_ifs <;>
    simp [String.data_append, data_join, cssLine_data, renderAll_append, renderAll,
      List.map_map, Function.comp, List.append_assoc, hfun,
      show (" \x7b" : String).data = [' ', '\x7b'] from rfl,
      show ("\n\x7d" : String).data = ['\n', '\x7d'] from rfl,
      show ("" : String).data = [] from rfl]

-- Batch 6a: genDecls keys and rendered character content

theorem genDecls_keys (styles : ThemeStyles) (mode : Mode) (fc : String → String) :
    (genDecls styles mode fc).map Prod.fst =
      themeColorKeys ++ ["font-sans", "font-serif", "font-mono", "radius"] ++ shadowVarKeys ++
        (if mode = .light ∧
            jsGet styles.light "letter-spacing" ≠ jsGet defaultLightThemeStyles "letter-spacing"
         then ["tracking-normal"] else []) ++
        (if mode = .light ∧ jsGet styles.light "spacing" ≠ jsGet defaultLightThemeStyles "spacing"
         then ["spacing"] else []) := by
  unfold genDecls
  split_ifs <;> simp [List.map_map, Function.comp_def]

theorem genDecls_keys_nodup (styles : ThemeStyles) (mode : Mode) (fc : String → String) :
    ((genDecls styles mode fc).map Prod.fst).Nodup := by
  rw [genDecls_keys]
  split_ifs <;> decide

theorem genDecls_keys_keyOk (styles : ThemeStyles) (mode : Mode) (fc : String → String) :
    ∀ kv ∈ genDecls styles mode fc, KeyOk kv.1 := by
  intro kv hm
  have hmem : kv.1 ∈ (genDecls styles mode fc).map Prod.fst := List.mem_map_of_mem _ hm
  rw [genDecls_keys] at hmem
  have hall : ∀ k ∈ themeColorKeys ++ ["font-sans", "font-serif", "font-mono", "radius"] ++
      shadowVarKeys ++ ["tracking-normal"] ++ ["spacing"], KeyOk k := by decide
  apply hall
  split_ifs at hmem <;> (simp only [List.mem_append] at hmem ⊢; tauto)

theorem mem_renderLine (c : Char) (kv : String × String) (h : c ∈ renderLine kv) :
    c = '\n' ∨ c = ' ' ∨ c = '-' ∨ c = ':' ∨ c = ';' ∨ c ∈ kv.1.data ∨ c ∈ kv.2.data := by
  simp [renderLine] at h
  tauto

theorem renderAll_no_brace (ds : List (String × String))
    (hk : ∀ kv ∈ ds, KeyOk kv.1) (hv : ∀ kv ∈ ds, CssSafe kv.2) :
    '\x7b' ∉ renderAll ds ∧ '\x7d' ∉ renderAll ds := by
  induction ds with
  | nil => simp [renderAll]
  | cons kv ds ih =>
      rw [renderAll_cons]
      obtain ⟨ih1, ih2⟩ := ih (fun p hp => hk p (List.mem_cons_of_mem _ hp))
        (fun p hp => hv p (List.mem_cons_of_mem _ hp))
      have hkey := hk kv (List.mem_cons_self _ _)
      have hval := hv kv (List.mem_cons_self _ _)
      constructor <;> intro hm <;> rcases List.mem_append.mp hm with h1 | h2
      · rcases mem_renderLine _ _ h1 with h | h | h | h | h | h | h
        · exact absurd h (by decide)
        · exact absurd h (by decide)
        · exact absurd h (by decide)
        · exact absurd h (by decide)
        · exact absurd h (by decide)
        · exact (hkey.2 _ h).2.2.2.1 rfl
        · exact ((hval _ h).2.1) rfl
      · exact ih1 h2
      · rcases mem_renderLine _ _ h1 with h | h | h | h | h | h | h
        · exact absurd h (by decide)
        · exact absurd h (by decide)
        · exact absurd h (by decide)
        · exact absurd h (by decide)
        · exact absurd h (by decide)
        · exact (hkey.2 _ h).2.2.2.2 rfl
        · exact ((hval _ h).2.2) rfl
      · exact ih2 h2

theorem genDecls_cons (styles : ThemeStyles) (mode : Mode) (fc : String → String) :
    ∃ kv rest, genDecls styles mode fc = kv :: rest := by
  exact ⟨_, _, rfl⟩

-- Batch 6b: applyDeclaration on a rendered declaration

theorem splitOnColon_ne_nil (l : List Char) : splitOnColon l ≠ [] := by
  rw [splitOnColon.eq_def]
  split
  · simp
  · simp
  · split <;> simp

theorem splitOnColon_no_colon (a : List Char) (ha : ∀ c ∈ a, c ≠ ':') :
    splitOnColon a = [a] := by
  induction a with
  | nil => rfl
  | cons c r ih =>
      rw [splitOnColon.eq_def]
      split
      · simp_all
      · rename_i r' heq
        exact absurd (List.cons.inj heq).1 (ha c (List.mem_cons_self _ _))
      · rename_i c' r' hne heq
        obtain ⟨h1, h2⟩ := List.cons.inj heq
        subst h1; subst h2
        rw [ih (fun d hd => ha d (List.mem_cons_of_mem _ hd))]

theorem splitOnColon_append (a b : List Char) (ha : ∀ c ∈ a, c ≠ ':') :
    splitOnColon (a ++ ':' :: b) = a :: splitOnColon b := by
  induction a with
  | nil =>
      rw [List.nil_append, splitOnColon.eq_def]
      rfl
  | cons c r ih =>
      rw [List.cons_append, splitOnColon.eq_def]
      split
      · simp_all
      · rename_i r' heq
        exact absurd (List.cons.inj heq).1 (ha c (List.mem_cons_self _ _))
      · rename_i c' r' hne heq
        obtain ⟨h1, h2⟩ := List.cons.inj heq
        subst h1; subst h2
        rw [ih (fun d hd => ha d (List.mem_cons_of_mem _ hd))]

theorem jsTrim_cons_ws (c : Char) (l : List Char) (h : isJsWs c = true) :
    jsTrim (c :: l) = jsTrim l := by
  unfold jsTrim
  rw [List.dropWhile_cons, if_pos h]

theorem jsReplaceFirst_dashdash (k : String) :
    jsReplaceFirst (String.mk ('-' :: '-' :: k.data)) "--" "" = k := by
  unfold jsReplaceFirst jsReplaceFirstAux
  rw [if_pos (by simp [List.isPrefixOf])]
  exact String.ext (by simp)

theorem applyDeclaration_declMatch (target : TokenSet) (k v : String)
    (hkOk : KeyOk k) (hvOk : ValueOk v) :
    applyDeclaration target (declMatch (k, v)) =
      if variableNames.contains k then
        if nonColorVariables.contains k then jsSet target k v
        else jsSet target k (colorFormatter (processColorValue v) .hex)
      else target := by
  unfold applyDeclaration declMatch
  have hsplit : splitOnColon ('-' :: '-' :: (k.data ++ ':' :: ' ' :: v.data)) =
      ('-' :: '-' :: k.data) :: splitOnColon (' ' :: v.data) := by
    have h := splitOnColon_append ('-' :: '-' :: k.data) (' ' :: v.data)
      (by
        intro c hc
        simp only [List.mem_cons] at hc
        rcases hc with rfl | rfl | hc
        · decide
        · decide
        · exact (hkOk.2 c hc).1)
    simpa using h
  have hv2 : splitOnColon (' ' :: v.data) = [' ' :: v.data] :=
    splitOnColon_no_colon _ (by
      intro c hc
      simp only [List.mem_cons] at hc
      rcases hc with rfl | hc
      · decide
      · exact hvOk.1 c hc)
  rw [hsplit, hv2]
  have htrimname : jsTrim ('-' :: '-' :: k.data) = '-' :: '-' :: k.data := by
    apply jsTrim_all_nonws
    intro c hc
    simp only [List.mem_cons] at hc
    rcases hc with rfl | rfl | hc
    · decide
    · decide
    · exact (hkOk.2 c hc).2.2.1
  have htrimval : jsTrim (' ' :: v.data) = v.data := by
    rw [jsTrim_cons_ws _ _ (by decide), hvOk.2]
  simp only [List.map_cons, List.map_nil, htrimname, htrimval]
  have hname := jsReplaceFirst_dashdash k
  have hvstr : String.mk v.data = v := String.ext rfl
  have hget0 : ([String.mk ('-' :: '-' :: k.data), v] : List String).getD 0 "" =
      String.mk ('-' :: '-' :: k.data) := rfl
  have hget1 : ([String.mk ('-' :: '-' :: k.data), v] : List String).getD 1 "" = v := rfl
  simp only [hvstr, hget0, hget1, hname]

theorem applyDeclaration_declMatch_weak (target : TokenSet) (k v : String)
    (hkOk : KeyOk k) :
    ∃ w, applyDeclaration target (declMatch (k, v)) =
      if variableNames.contains k then jsSet target k w else target := by
  unfold applyDeclaration declMatch
  have hsplit : splitOnColon ('-' :: '-' :: (k.data ++ ':' :: ' ' :: v.data)) =
      ('-' :: '-' :: k.data) :: splitOnColon (' ' :: v.data) := by
    have h := splitOnColon_append ('-' :: '-' :: k.data) (' ' :: v.data)
      (by
        intro c hc
        simp only [List.mem_cons] at hc
        rcases hc with rfl | rfl | hc
        · decide
        · decide
        · exact (hkOk.2 c hc).1)
    simpa using h
  obtain ⟨p, ps, hp⟩ : ∃ p ps, splitOnColon (' ' :: v.data) = p :: ps := by
    cases h : splitOnColon (' ' :: v.data) with
    | nil => exact absurd h (splitOnColon_ne_nil _)
    | cons p ps => exact ⟨p, ps, rfl⟩
  rw [hsplit, hp]
  have htrimname : jsTrim ('-' :: '-' :: k.data) = '-' :: '-' :: k.data := by
    apply jsTrim_all_nonws
    intro c hc
    simp only [List.mem_cons] at hc
    rcases hc with rfl | rfl | hc
    · decide
    · decide
    · exact (hkOk.2 c hc).2.2.1
  have hname := jsReplaceFirst_dashdash k
  have hget0 : (String.mk ('-' :: '-' :: k.data) ::
      String.mk (jsTrim p) :: ps.map (fun q => String.mk (jsTrim q))).getD 0 "" =
      String.mk ('-' :: '-' :: k.data) := rfl
  have hget1 : (String.mk ('-' :: '-' :: k.data) ::
      String.mk (jsTrim p) :: ps.map (fun q => String.mk (jsTrim q))).getD 1 "" =
      String.mk (jsTrim p) := rfl
  simp only [List.map_cons, htrimname, hget0, hget1, hname]
  refine ⟨if nonColorVariables.contains k = true then String.mk (jsTrim p)
    else colorFormatter (processColorValue (String.mk (jsTrim p))) ColorFormat.hex, ?_⟩
  by_cases h1 : variableNames.contains k = true
  · rw [if_pos h1, if_pos h1]
    by_cases h2 : nonColorVariables.contains k = true
    · rw [if_pos h2, if_pos h2]
    · rw [if_neg h2, if_neg h2]
  · rw [if_neg h1, if_neg h1]

theorem foldl_applyDecl_preserve (ds : List (String × String)) (target : TokenSet)
    (k : String) (h : ∀ kv ∈ ds, KeyOk kv.1 ∧ kv.1 ≠ k) :
    jsGet ((ds.map declMatch).foldl applyDeclaration target) k = jsGet target k := by
  induction ds generalizing target with
  | nil => rfl
  | cons kv ds ih =>
      rw [List.map_cons, List.foldl_cons]
      obtain ⟨hOk, hne⟩ := h kv (List.mem_cons_self _ _)
      obtain ⟨w, hw⟩ := applyDeclaration_declMatch_weak target kv.1 kv.2 hOk
      rw [ih _ (fun p hp => h p (List.mem_cons_of_mem _ hp))]
      rw [show declMatch kv = declMatch (kv.1, kv.2) from rfl, hw]
      split
      · exact jsGet_set_other _ _ _ _ hne
      · rfl

theorem importFold_lookup (ds : List (String × String)) (k v : String)
    (hmem : (k, v) ∈ ds) (hnodup : (ds.map Prod.fst).Nodup)
    (hkeys : ∀ kv ∈ ds, KeyOk kv.1) (hv : ValueOk v)
    (hk1 : variableNames.contains k = true) (hk2 : nonColorVariables.contains k = false) :
    jsGet (importFold ds) k = some (colorFormatter (processColorValue v) .hex) := by
  unfold importFold
  suffices h : ∀ target : TokenSet,
      jsGet ((ds.map declMatch).foldl applyDeclaration target) k =
        some (colorFormatter (processColorValue v) .hex) from h []
  induction ds with
  | nil => exact absurd hmem (by simp)
  | cons kv ds ih =>
      intro target
      rw [List.map_cons, List.foldl_cons]
      rcases List.mem_cons.mp hmem with heq | hmem'
      · have hkv : kv = (k, v) := heq.symm
        subst hkv
        have hOk := hkeys (k, v) (List.mem_cons_self _ _)
        rw [foldl_applyDecl_preserve ds _ k (by
          intro p hp
          refine ⟨hkeys p (List.mem_cons_of_mem _ hp), ?_⟩
          intro hpk
          have : k ∈ ds.map Prod.fst := by
            rw [← hpk]
            exact List.mem_map_of_mem _ hp
          simp only [List.map_cons, List.nodup_cons] at hnodup
          exact hnodup.1 this)]
        rw [show declMatch (k, v) = declMatch (k, v) from rfl,
          applyDeclaration_declMatch target k v hOk hv, if_pos hk1,
          if_neg (by rw [hk2]; exact Bool.false_ne_true)]
        exact jsGet_set_self _ _ _
      · have hk_in : k ∈ ds.map Prod.fst := by
          have : (k, v) ∈ ds := hmem'
          simpa using List.mem_map_of_mem Prod.fst this
        have hnodup' : (ds.map Prod.fst).Nodup := by
          simp only [List.map_cons, List.nodup_cons] at hnodup
          exact hnodup.2
        exact ih hmem' hnodup' (fun p hp => hkeys p (List.mem_cons_of_mem _ hp)) _

-- Batch 7: the structural round-trip theorem

theorem parseCssInput_of_shape (input : String) (L D : List (String × String)) (SS : List Char)
    (hdata : input.data = ':' :: 'r' :: 'o' :: 'o' :: 't' :: ' ' :: '\x7b' ::
      (renderAll L ++ '\n' :: '\x7d' :: '\n' :: '\n' ::
        '.' :: 'd' :: 'a' :: 'r' :: 'k' :: ' ' :: '\x7b' ::
          (renderAll D ++ '\n' :: '\x7d' :: SS)))
    (hLc : ∃ kv rest, L = kv :: rest) (hDc : ∃ kv rest, D = kv :: rest)
    (hkeysL : ∀ kv ∈ L, KeyOk kv.1) (hkeysD : ∀ kv ∈ D, KeyOk kv.1)
    (hL : ∀ kv ∈ L, CssSafe kv.2) (hD : ∀ kv ∈ D, CssSafe kv.2) :
    (parseCssInput input).1 = importFold L ∧ (parseCssInput input).2 = importFold D := by
  obtain ⟨hbL1, hbL2⟩ := renderAll_no_brace L hkeysL hL
  obtain ⟨hbD1, hbD2⟩ := renderAll_no_brace D hkeysD hD
  obtain ⟨kvL, L', hLsh⟩ := hLc
  obtain ⟨kvD, D', hDsh⟩ := hDc
  have hcontentL : ∀ c ∈ renderAll L ++ ['\n'], c ≠ '\x7d' := by
    intro c hc
    rcases List.mem_append.mp hc with h | h
    · exact fun he => hbL2 (he ▸ h)
    · simp at h
      subst h
      decide
  have hcontentD : ∀ c ∈ renderAll D ++ ['\n'], c ≠ '\x7d' := by
    intro c hc
    rcases List.mem_append.mp hc with h | h
    · exact fun he => hbD2 (he ▸ h)
    · simp at h
      subst h
      decide
  have hfbL : findBlock [':', 'r', 'o', 'o', 't'] input.data = some (renderAll L ++ ['\n']) := by
    have hm := matchBlockAt_exact [':', 'r', 'o', 'o', 't'] (renderAll L ++ ['\n'])
      ('\n' :: '\n' :: '.' :: 'd' :: 'a' :: 'r' :: 'k' :: ' ' :: '\x7b' ::
        (renderAll D ++ '\n' :: '\x7d' :: SS))
      (by simp) hcontentL
    simp only [List.cons_append, List.nil_append, List.append_assoc,
      List.singleton_append] at hm
    rw [hdata, findBlock_cons, hm]
  have hfbD : findBlock ['.', 'd', 'a', 'r', 'k'] input.data = some (renderAll D ++ ['\n']) := by
    have hdata2 : input.data =
        ([':', 'r', 'o', 'o', 't', ' ', '\x7b'] ++
          (renderAll L ++ ['\n', '\x7d', '\n', '\n'])) ++
        ('.' :: 'd' :: 'a' :: 'r' :: 'k' ::
          (' ' :: '\x7b' :: ((renderAll D ++ ['\n']) ++ '\x7d' :: SS))) := by
      rw [hdata]
      simp [List.append_assoc]
    rw [hdata2]
    rw [findBlock_append_skip _ _ _ (fun v hv hne =>
      matchBlockAt_dark_none (renderAll L) v
        (' ' :: '\x7b' :: ((renderAll D ++ ['\n']) ++ '\x7d' :: SS)) hbL1 hv hne)]
    have hm := matchBlockAt_exact ['.', 'd', 'a', 'r', 'k'] (renderAll D ++ ['\n']) SS
      (by simp) hcontentD
    simp only [List.cons_append, List.nil_append, List.append_assoc,
      List.singleton_append] at hm ⊢
    rw [findBlock_cons, hm]
  have hextL : extractCssBlockContent input ":root" = some (String.mk (scanInput L)) := by
    unfold extractCssBlockContent
    rw [show (":root" : String).data = [':', 'r', 'o', 'o', 't'] from rfl, hfbL]
    dsimp only
    rw [hLsh, jsTrim_scanInput]
    rw [if_neg (by rw [scanInput_cons_eq]; simp)]
  have hextD : extractCssBlockContent input ".dark" = some (String.mk (scanInput D)) := by
    unfold extractCssBlockContent
    rw [show (".dark" : String).data = ['.', 'd', 'a', 'r', 'k'] from rfl, hfbD]
    dsimp only
    rw [hDsh, jsTrim_scanInput]
    rw [if_neg (by rw [scanInput_cons_eq]; simp)]
  have hcondL : ∀ kv ∈ L, kv.1.data ≠ [] ∧ (∀ c ∈ kv.1.data, c ≠ ':') ∧
      (∀ c ∈ kv.2.data, c ≠ ';') := by
    intro kv hkv
    have hK := hkeysL kv hkv
    have hV := hL kv hkv
    exact ⟨hK.1, fun c hc => (hK.2 c hc).1, fun c hc => (hV c hc).1⟩
  have hcondD : ∀ kv ∈ D, kv.1.data ≠ [] ∧ (∀ c ∈ kv.1.data, c ≠ ':') ∧
      (∀ c ∈ kv.2.data, c ≠ ';') := by
    intro kv hkv
    have hK := hkeysD kv hkv
    have hV := hD kv hkv
    exact ⟨hK.1, fun c hc => (hK.2 c hc).1, fun c hc => (hV c hc).1⟩
  have hpvL : parseColorVariables (String.mk (scanInput L)) = importFold L := by
    unfold parseColorVariables importFold
    rw [show (String.mk (scanInput L)).data = scanInput L from rfl]
    rw [findDecls_scanInput _ hcondL]
  have hpvD : parseColorVariables (String.mk (scanInput D)) = importFold D := by
    unfold parseColorVariables importFold
    rw [show (String.mk (scanInput D)).data = scanInput D from rfl]
    rw [findDecls_scanInput _ hcondD]
  constructor
  · show (parseCssInput input).1 = importFold L
    unfold parseCssInput
    rw [hextL]
    dsimp only
    exact hpvL
  · show (parseCssInput input).2 = importFold D
    unfold parseCssInput
    rw [hextD]
    dsimp only
    exact hpvD

theorem parseCssInput_generateThemeCode (styles : ThemeStyles) (fmt : ColorFormat)
    (ver : String) (out : String)
    (hok : generateThemeCode styles.toGenState fmt ver = .ok out)
    (hL : ∀ kv ∈ genDecls styles .light (fun c => colorFormatter c fmt ver), CssSafe kv.2)
    (hD : ∀ kv ∈ genDecls styles .dark (fun c => colorFormatter c fmt ver), CssSafe kv.2) :
    (parseCssInput out).1 =
        importFold (genDecls styles .light (fun c => colorFormatter c fmt ver)) ∧
      (parseCssInput out).2 =
        importFold (genDecls styles .dark (fun c => colorFormatter c fmt ver)) := by
  unfold generateThemeCode ThemeStyles.toGenState at hok
  rw [if_neg (by simp)] at hok
  simp only [Option.getD_some] at hok
  have heta : ({ light := styles.light, dark := styles.dark } : ThemeStyles) = styles := rfl
  rw [heta] at hok
  injection hok with hok
  have hld := generateThemeVariables_data styles .light (fun c => colorFormatter c fmt ver)
  have hdd := generateThemeVariables_data styles .dark (fun c => colorFormatter c fmt ver)
  rw [if_neg (by simp)] at hld
  rw [if_pos rfl] at hdd
  apply parseCssInput_of_shape out
    (genDecls styles .light (fun c => colorFormatter c fmt ver))
    (genDecls styles .dark (fun c => colorFormatter c fmt ver))
    (((if ver = "4" then "\n\n" ++ generateTailwindV4ThemeInline styles else "") ++
      (if jsGet styles.light "letter-spacing" ≠ some "0em" then
        "\n\nbody \x7b\n  letter-spacing: var(--tracking-normal);\n\x7d" else "")).data)
  · rw [← hok]
    simp only [String.data_append, hld, hdd,
      show ("\n\n" : String).data = ['\n', '\n'] from rfl,
      show (":root" : String).data = [':', 'r', 'o', 'o', 't'] from rfl,
      show (".dark" : String).data = ['.', 'd', 'a', 'r', 'k'] from rfl]
    simp [List.append_assoc]
  · exact genDecls_cons styles .light _
  · exact genDecls_cons styles .dark _
  · exact genDecls_keys_keyOk styles .light _
  · exact genDecls_keys_keyOk styles .dark _
  · exact hL
  · exact hD

-- Batch 8: hex serialization round-trip

theorem hexDigitChar_props (d : ℕ) (h : d < 16) :
    hexDigitChar d ≠ ';' ∧ hexDigitChar d ≠ '\x7b' ∧ hexDigitChar d ≠ '\x7d' ∧
      hexDigitChar d ≠ ':' ∧ isJsWs (hexDigitChar d) = false ∧
      isHexDigit (hexDigitChar d) = true ∧ hexVal (hexDigitChar d) = d := by
  interval_cases d <;> decide

theorem chanByte_le (c : ℚ) : chanByte c ≤ 255 := by
  unfold chanByte
  have h1 : max 0 (min 255 (jsMathRound (255 * c))) ≤ 255 :=
    max_le (by norm_num) (min_le_left _ _)
  exact Int.toNat_le.mpr h1

theorem formatHex_eq (col : JsColor) :
    formatHex col = String.mk ['#',
      hexDigitChar (chanByte (toRgbChannels col).1 / 16),
      hexDigitChar (chanByte (toRgbChannels col).1 % 16),
      hexDigitChar (chanByte (toRgbChannels col).2.1 / 16),
      hexDigitChar (chanByte (toRgbChannels col).2.1 % 16),
      hexDigitChar (chanByte (toRgbChannels col).2.2 / 16),
      hexDigitChar (chanByte (toRgbChannels col).2.2 % 16)] := by
  unfold formatHex hex2
  rcases h : toRgbChannels col with ⟨r, g, b⟩
  apply String.ext
  simp [String.data_append]

theorem formatHex_mem (col : JsColor) (c : Char) (hc : c ∈ (formatHex col).data) :
    c = '#' ∨ ∃ d, d < 16 ∧ c = hexDigitChar d := by
  rw [formatHex_eq] at hc
  have hr := chanByte_le (toRgbChannels col).1
  have hg := chanByte_le (toRgbChannels col).2.1
  have hb := chanByte_le (toRgbChannels col).2.2
  simp only [show ∀ l : List Char, (String.mk l).data = l from fun _ => rfl] at hc
  simp only [List.mem_cons, List.not_mem_nil, or_false] at hc
  rcases hc with rfl | rfl | rfl | rfl | rfl | rfl | rfl
  · left; rfl
  · right; exact ⟨_, by omega, rfl⟩
  · right; exact ⟨_, by omega, rfl⟩
  · right; exact ⟨_, by omega, rfl⟩
  · right; exact ⟨_, by omega, rfl⟩
  · right; exact ⟨_, by omega, rfl⟩
  · right; exact ⟨_, by omega, rfl⟩

theorem formatHex_safe (col : JsColor) : CssSafe (formatHex col) := by
  intro c hc
  rcases formatHex_mem col c hc with rfl | ⟨d, hd, rfl⟩
  · exact ⟨by decide, by decide, by decide⟩
  · obtain ⟨p1, p2, p3, _⟩ := hexDigitChar_props d hd
    exact ⟨p1, p2, p3⟩

theorem formatHex_valueOk (col : JsColor) : ValueOk (formatHex col) := by
  constructor
  · intro c hc
    rcases formatHex_mem col c hc with rfl | ⟨d, hd, rfl⟩
    · decide
    · exact (hexDigitChar_props d hd).2.2.2.1
  · apply jsTrim_all_nonws
    intro c hc
    rcases formatHex_mem col c hc with rfl | ⟨d, hd, rfl⟩
    · decide
    · exact (hexDigitChar_props d hd).2.2.2.2.1

theorem q_divmod (a : ℕ) :
    (16 : ℚ) * ((a / 16 : ℕ) : ℚ) + ((a % 16 : ℕ) : ℚ) = (a : ℚ) := by
  have h : 16 * (a / 16) + a % 16 = a := by omega
  calc (16 : ℚ) * ((a / 16 : ℕ) : ℚ) + ((a % 16 : ℕ) : ℚ)
      = ((16 * (a / 16) + a % 16 : ℕ) : ℚ) := by push_cast; ring
    _ = (a : ℚ) := by rw [h]

theorem parseColor_formatHex (col : JsColor) :
    parseColor (formatHex col) = some (.rgb
      ((chanByte (toRgbChannels col).1 : ℚ) / 255)
      ((chanByte (toRgbChannels col).2.1 : ℚ) / 255)
      ((chanByte (toRgbChannels col).2.2 : ℚ) / 255)) := by
  rw [formatHex_eq]
  show parseHexDigits [hexDigitChar (chanByte (toRgbChannels col).1 / 16),
      hexDigitChar (chanByte (toRgbChannels col).1 % 16),
      hexDigitChar (chanByte (toRgbChannels col).2.1 / 16),
      hexDigitChar (chanByte (toRgbChannels col).2.1 % 16),
      hexDigitChar (chanByte (toRgbChannels col).2.2 / 16),
      hexDigitChar (chanByte (toRgbChannels col).2.2 % 16)] = _
  have hr := chanByte_le (toRgbChannels col).1
  have hg := chanByte_le (toRgbChannels col).2.1
  have hb := chanByte_le (toRgbChannels col).2.2
  unfold parseHexDigits
  rw [if_pos (by
    simp only [List.all_cons, List.all_nil, Bool.and_true, Bool.and_eq_true]
    refine ⟨?_, ?_, ?_, ?_, ?_, ?_⟩ <;> exact (hexDigitChar_props _ (by omega)).2.2.2.2.2.1)]
  simp only [(hexDigitChar_props _ (show chanByte (toRgbChannels col).1 / 16 < 16 by omega)).2.2.2.2.2.2,
    (hexDigitChar_props _ (show chanByte (toRgbChannels col).1 % 16 < 16 by omega)).2.2.2.2.2.2,
    (hexDigitChar_props _ (show chanByte (toRgbChannels col).2.1 / 16 < 16 by omega)).2.2.2.2.2.2,
    (hexDigitChar_props _ (show chanByte (toRgbChannels col).2.1 % 16 < 16 by omega)).2.2.2.2.2.2,
    (hexDigitChar_props _ (show chanByte (toRgbChannels col).2.2 / 16 < 16 by omega)).2.2.2.2.2.2,
    (hexDigitChar_props _ (show chanByte (toRgbChannels col).2.2 % 16 < 16 by omega)).2.2.2.2.2.2]
  rw [q_divmod, q_divmod, q_divmod]

theorem chanByte_frac (a : ℕ) (h : a ≤ 255) : chanByte ((a : ℚ) / 255) = a := by
  unfold chanByte jsMathRound
  have h1 : (255 : ℚ) * ((a : ℚ) / 255) = (a : ℚ) := by
    rw [← mul_div_assoc]
    exact mul_div_cancel_left₀ _ (by norm_num)
  rw [h1]
  have h2 : ⌊(a : ℚ) + 1 / 2⌋ = (a : ℤ) := by
    rw [Int.floor_nat_add]
    norm_num
  rw [h2]
  have h3 : (a : ℤ) ≤ 255 := by exact_mod_cast h
  have h4 : (0 : ℤ) ≤ (a : ℤ) := by positivity
  rw [min_eq_right h3, max_eq_right h4]
  exact Int.toNat_natCast a

theorem colorFormatter_hex_of_parse (s : String) (col : JsColor) (ver : String)
    (h : parseColor s = some col) : colorFormatter s .hex ver = formatHex col := by
  unfold colorFormatter
  rw [h]

theorem processColorValue_formatHex (col : JsColor) :
    processColorValue (formatHex col) = formatHex col := by
  rw [formatHex_eq]
  rfl

theorem roundtrip_hex (col : JsColor) :
    colorFormatter (processColorValue (formatHex col)) .hex = formatHex col := by
  rw [processColorValue_formatHex,
    colorFormatter_hex_of_parse _ _ _ (parseColor_formatHex col)]
  rw [formatHex_eq col]
  show "#" ++ hex2 (chanByte ((chanByte (toRgbChannels col).1 : ℚ) / 255)) ++
      hex2 (chanByte ((chanByte (toRgbChannels col).2.1 : ℚ) / 255)) ++
      hex2 (chanByte ((chanByte (toRgbChannels col).2.2 : ℚ) / 255)) = _
  rw [chanByte_frac _ (chanByte_le _), chanByte_frac _ (chanByte_le _),
    chanByte_frac _ (chanByte_le _)]
  apply String.ext
  simp [hex2, String.data_append]

-- Batch 9a: character sets of the numeric formatters

theorem CssSafe_append (a b : String) (ha : CssSafe a) (hb : CssSafe b) :
    CssSafe (a ++ b) := by
  intro c hc
  rw [String.data_append] at hc
  rcases List.mem_append.mp hc with h | h
  · exact ha c h
  · exact hb c h

theorem digitChar_isDigit (m : ℕ) (h : m < 10) : isDigit (Nat.digitChar m) = true := by
  interval_cases m <;> decide

theorem toDigitsCore_digits (fuel : ℕ) (n : ℕ) (ds : List Char)
    (hds : ∀ c ∈ ds, isDigit c = true) :
    ∀ c ∈ Nat.toDigitsCore 10 fuel n ds, isDigit c = true := by
  induction fuel generalizing n ds with
  | zero => simpa [Nat.toDigitsCore] using hds
  | succ fuel ih =>
      intro c hc
      rw [Nat.toDigitsCore] at hc
      split at hc
      · rcases List.mem_cons.mp hc with rfl | h
        · exact digitChar_isDigit _ (by omega)
        · exact hds c h
      · refine ih (n / 10) (Nat.digitChar (n % 10) :: ds) ?_ c hc
        intro d hd
        rcases List.mem_cons.mp hd with rfl | h
        · exact digitChar_isDigit _ (by omega)
        · exact hds d h

theorem natToString_digits (n : ℕ) : ∀ c ∈ (natToString n).data, isDigit c = true := by
  intro c hc
  have hrepr : (natToString n).data = Nat.toDigitsCore 10 (n + 1) n [] := rfl
  rw [hrepr] at hc
  exact toDigitsCore_digits _ _ _ (by simp) c hc

theorem CssSafe_of_digits (s : String) (h : ∀ c ∈ s.data, isDigit c = true) :
    CssSafe s := by
  intro c hc
  have hd := h c hc
  simp only [isDigit, decide_eq_true_eq] at hd
  refine ⟨?_, ?_, ?_⟩ <;> (intro heq; subst heq; revert hd; decide)

theorem natToString_safe (n : ℕ) : CssSafe (natToString n) :=
  CssSafe_of_digits _ (natToString_digits n)

theorem intToString_safe (i : ℤ) : CssSafe (intToString i) := by
  unfold intToString
  split
  · exact CssSafe_append _ _ (by decide) (natToString_safe _)
  · exact natToString_safe _

theorem pad2_safe (n : ℕ) : CssSafe (pad2 n) := by
  unfold pad2
  split
  · exact CssSafe_append _ _ (by decide) (natToString_safe _)
  · exact natToString_safe _

theorem toFixed2_safe (x : ℚ) : CssSafe (toFixed2 x) := by
  unfold toFixed2
  refine CssSafe_append _ _ (CssSafe_append _ _ (CssSafe_append _ _ ?_ ?_) ?_) ?_
  · split
    · decide
    · decide
  · exact natToString_safe _
  · decide
  · exact pad2_safe _

theorem toFixed2Opt_safe (x : Option ℚ) : CssSafe (toFixed2Opt x) := by
  cases x with
  | none => decide
  | some q => exact toFixed2_safe q

theorem jsNumToString_safe (q : ℚ) : CssSafe (jsNumToString q) := by
  unfold jsNumToString
  split
  · exact intToString_safe _
  · refine CssSafe_append _ _ (CssSafe_append _ _ (CssSafe_append _ _ ?_ ?_) ?_) ?_
    · split
      · decide
      · decide
    · exact natToString_safe _
    · decide
    · refine CssSafe_append _ _ ?_ (natToString_safe _)
      intro c hc
      have : c = '0' := by
        have := List.eq_of_mem_replicate (by simpa using hc)
        exact this
      subst this
      decide
  · exact CssSafe_append _ _ (CssSafe_append _ _ (intToString_safe _) (by decide))
      (natToString_safe _)

theorem jsNumToStringOpt_safe (x : Option ℚ) : CssSafe (jsNumToStringOpt x) := by
  cases x with
  | none => decide
  | some q => exact jsNumToString_safe q

theorem formatNumber_safe (x : Option ℚ) : CssSafe (formatNumber x) := by
  unfold formatNumber
  split
  · decide
  · split
    · decide
    · split
      · exact intToString_safe _
      · exact toFixed2_safe _

theorem colorFormatter_hsl3_safe (s : String) (hs : CssSafe s) :
    CssSafe (colorFormatter s .hsl "3") := by
  unfold colorFormatter
  cases h : parseColor s with
  | none => exact hs
  | some col =>
      dsimp only
      rw [if_neg (by decide)]
      refine CssSafe_append _ _ (CssSafe_append _ _ (CssSafe_append _ _
        (CssSafe_append _ _ (CssSafe_append _ _ ?_ ?_) ?_) ?_) ?_) ?_
      · exact formatNumber_safe _
      · decide
      · exact formatNumber_safe _
      · decide
      · exact formatNumber_safe _
      · decide

-- Batch 9b: provenance of looked-up and merged values

theorem jsGet_mem (o : TokenSet) (k v : String) (h : jsGet o k = some v) : (k, v) ∈ o := by
  unfold jsGet at h
  cases hf : o.find? (fun p => p.1 == k) with
  | none => rw [hf] at h; simp at h
  | some p =>
      rw [hf] at h
      simp only [Option.map_some'] at h
      have hp := List.find?_some hf
      have hmem := List.mem_of_find?_eq_some hf
      have hk : p.1 = k := by simpa using hp
      have hv : p.2 = v := by simpa using h
      rw [← hk, ← hv]
      exact hmem

theorem jsMerge_mem (a b : TokenSet) (kv : String × String) (h : kv ∈ jsMerge a b) :
    kv ∈ a ∨ kv ∈ b := by
  unfold jsMerge at h
  rcases List.mem_append.mp h with h1 | h2
  · obtain ⟨p, hp, hpe⟩ := List.mem_map.mp h1
    cases hg : jsGet b p.1 with
    | none => rw [hg] at hpe; left; rw [← hpe]; exact hp
    | some v =>
        rw [hg] at hpe
        right
        rw [← hpe]
        exact jsGet_mem b p.1 v hg
  · right
    exact List.mem_of_mem_filter h2

theorem jsGetStr_safe_key (o : TokenSet) (k : String)
    (h : ∀ kv ∈ o, kv.1 = k → CssSafe kv.2) : CssSafe (jsGetStr o k) := by
  unfold jsGetStr
  cases hg : jsGet o k with
  | none => decide
  | some v =>
      simp only [Option.getD_some]
      exact h (k, v) (jsGet_mem o k v hg) rfl

-- Batch 9c: the shadow map emits css-safe values

set_option maxHeartbeats 1000000 in
set_option maxRecDepth 8192 in
theorem defaultLight_values_safe : ∀ kv ∈ defaultLightThemeStyles, CssSafe kv.2 := by
  decide

set_option maxHeartbeats 1000000 in
set_option maxRecDepth 8192 in
theorem defaultDarkOverrides_values_safe : ∀ kv ∈ defaultDarkOverrides, CssSafe kv.2 := by
  decide

theorem defaultDark_values_safe : ∀ kv ∈ defaultDarkThemeStyles, CssSafe kv.2 := by
  intro kv hm
  rcases jsMerge_mem _ _ _ hm with h | h
  · exact defaultLight_values_safe kv h
  · exact defaultDarkOverrides_values_safe kv h

theorem css_term_safe (a b c d e : String) (ha : CssSafe a) (hb : CssSafe b)
    (hc : CssSafe c) (hd : CssSafe d) (he : CssSafe e) :
    CssSafe (a ++ " " ++ b ++ " " ++ c ++ " " ++ d ++ " " ++ e) := by
  have hs : CssSafe " " := by decide
  exact CssSafe_append _ _ (CssSafe_append _ _ (CssSafe_append _ _ (CssSafe_append _ _
    (CssSafe_append _ _ (CssSafe_append _ _ (CssSafe_append _ _ ha hs) hb) hs) hc) hs)
    hd) hs |> (CssSafe_append _ _ · he)

theorem css_color_safe (hsl : String) (hhsl : CssSafe hsl) (q : Option ℚ) :
    CssSafe ("hsl(" ++ hsl ++ " / " ++ toFixed2Opt q ++ ")") := by
  refine CssSafe_append _ _ (CssSafe_append _ _ (CssSafe_append _ _
    (CssSafe_append _ _ ?_ hhsl) ?_) (toFixed2Opt_safe q)) ?_
  · decide
  · decide
  · decide

theorem getShadowMap_values_safe (state : ThemeEditorState)
    (h : ∀ kv ∈ state.styles.get state.currentMode, kv.1 ∉ themeColorKeys → CssSafe kv.2) :
    ∀ kv ∈ getShadowMap state, CssSafe kv.2 := by
  intro kv hm
  have hdef : ∀ kv ∈ defaultThemeState.styles.get state.currentMode, CssSafe kv.2 := by
    cases hmode : state.currentMode
    · exact fun kv hm => defaultLight_values_safe kv hm
    · exact fun kv hm => defaultDark_values_safe kv hm
  have hkey : ∀ k : String, k ∉ themeColorKeys →
      CssSafe (jsGetStr (jsMerge (defaultThemeState.styles.get state.currentMode)
        (state.styles.get state.currentMode)) k) := by
    intro k hk
    apply jsGetStr_safe_key
    intro kv2 hkv2 hkeq
    rcases jsMerge_mem _ _ _ hkv2 with h1 | h2
    · exact hdef kv2 h1
    · exact h kv2 h2 (hkeq ▸ hk)
  have hX := hkey "shadow-offset-x" (by decide)
  have hY := hkey "shadow-offset-y" (by decide)
  have hB := hkey "shadow-blur" (by decide)
  have hS := hkey "shadow-spread" (by decide)
  have hC : CssSafe (colorFormatter (jsGetStr
      (jsMerge (defaultThemeState.styles.get state.currentMode)
        (state.styles.get state.currentMode)) "shadow-color") .hsl "3") :=
    colorFormatter_hsl3_safe _ (hkey "shadow-color" (by decide))
  have hsp2 : CssSafe (jsNumToStringOpt ((jsParseFloat
      (((jsGet (jsMerge (defaultThemeState.styles.get state.currentMode)
        (state.styles.get state.currentMode)) "shadow-spread").map
          (fun s => jsReplaceFirst s "px" "")).getD "0")).map (fun q => q - 1)) ++ "px") :=
    CssSafe_append _ _ (jsNumToStringOpt_safe _) (by decide)
  unfold getShadowMap at hm
  simp only [List.mem_cons, List.not_mem_nil, or_false] at hm
  rcases hm with rfl | rfl | rfl | rfl | rfl | rfl | rfl | rfl
  · exact css_term_safe _ _ _ _ _ hX hY hB hS (css_color_safe _ hC _)
  · exact css_term_safe _ _ _ _ _ hX hY hB hS (css_color_safe _ hC _)
  · exact css_term_safe _ _ _ _ _ hX hY hB hS (css_color_safe _ hC _)
  · exact CssSafe_append _ _ (CssSafe_append _ _
      (css_term_safe _ _ _ _ _ hX hY hB hS (css_color_safe _ hC _)) (by decide))
      (css_term_safe _ _ _ _ _ hX (by decide) (by decide) hsp2 (css_color_safe _ hC _))
  · exact CssSafe_append _ _ (CssSafe_append _ _
      (css_term_safe _ _ _ _ _ hX hY hB hS (css_color_safe _ hC _)) (by decide))
      (css_term_safe _ _ _ _ _ hX (by decide) (by decide) hsp2 (css_color_safe _ hC _))
  · exact CssSafe_append _ _ (CssSafe_append _ _
      (css_term_safe _ _ _ _ _ hX hY hB hS (css_color_safe _ hC _)) (by decide))
      (css_term_safe _ _ _ _ _ hX (by decide) (by decide) hsp2 (css_color_safe _ hC _))
  · exact CssSafe_append _ _ (CssSafe_append _ _
      (css_term_safe _ _ _ _ _ hX hY hB hS (css_color_safe _ hC _)) (by decide))
      (css_term_safe _ _ _ _ _ hX (by decide) (by decide) hsp2 (css_color_safe _ hC _))
  · exact CssSafe_append _ _ (CssSafe_append _ _
      (css_term_safe _ _ _ _ _ hX hY hB hS (css_color_safe _ hC _)) (by decide))
      (css_term_safe _ _ _ _ _ hX (by decide) (by decide) hsp2 (css_color_safe _ hC _))

-- Batch 9d: all generated declaration values are css-safe (hex format)

theorem genDecls_mem_color (styles : ThemeStyles) (mode : Mode) (fc : String → String)
    (k : String) (hk : k ∈ themeColorKeys) :
    (k, fc (jsGetStr (styles.get mode) k)) ∈ genDecls styles mode fc := by
  unfold genDecls
  exact List.mem_append.mpr (Or.inl (List.mem_append.mpr (Or.inl (List.mem_append.mpr
    (Or.inl (List.mem_append.mpr (Or.inl (List.mem_map.mpr ⟨k, hk, rfl⟩))))))))

theorem genDecls_values_safe_hex (styles : ThemeStyles) (mode : Mode) (ver : String)
    (hcolors : ∀ k ∈ themeColorKeys,
      ((jsGet (styles.get mode) k).bind (fun v => parseColor v)).isSome = true)
    (hsafe : ∀ kv ∈ styles.get mode, kv.1 ∉ themeColorKeys → CssSafe kv.2)
    (hsafeLight : ∀ kv ∈ styles.light, kv.1 ∉ themeColorKeys → CssSafe kv.2) :
    ∀ kv ∈ genDecls styles mode (fun c => colorFormatter c .hex ver), CssSafe kv.2 := by
  have hplain : ∀ k : String, k ∉ themeColorKeys → CssSafe (jsGetStr (styles.get mode) k) :=
    fun k hk => jsGetStr_safe_key _ _ (fun kv2 h2 heq => hsafe kv2 h2 (heq ▸ hk))
  have hplainL : ∀ k : String, k ∉ themeColorKeys → CssSafe (jsGetStr styles.light k) :=
    fun k hk => jsGetStr_safe_key _ _ (fun kv2 h2 heq => hsafeLight kv2 h2 (heq ▸ hk))
  intro kv hm
  unfold genDecls at hm
  rcases List.mem_append.mp hm with hm | hmE
  · rcases List.mem_append.mp hm with hm | hmD
    · rcases List.mem_append.mp hm with hm | hmC
      · rcases List.mem_append.mp hm with hmA | hmB
        · obtain ⟨k, hk, hke⟩ := List.mem_map.mp hmA
          have hc := hcolors k hk
          cases hg : jsGet (styles.get mode) k with
          | none => rw [hg] at hc; simp at hc
          | some v0 =>
              rw [hg] at hc
              simp only [Option.some_bind] at hc
              cases hp : parseColor v0 with
              | none => rw [hp] at hc; simp at hc
              | some col =>
                  have hval : jsGetStr (styles.get mode) k = v0 := by
                    unfold jsGetStr
                    rw [hg]
                    rfl
                  rw [← hke]
                  show CssSafe (colorFormatter (jsGetStr (styles.get mode) k) .hex ver)
                  rw [hval, colorFormatter_hex_of_parse v0 col ver hp]
                  exact formatHex_safe col
        · simp only [List.mem_cons, List.not_mem_nil, or_false] at hmB
          rcases hmB with rfl | rfl | rfl | rfl <;> exact hplain _ (by decide)
      · obtain ⟨k, hk, hke⟩ := List.mem_map.mp hmC
        rw [← hke]
        show CssSafe (jsGetStr (getShadowMap { styles := styles, currentMode := mode }) k)
        apply jsGetStr_safe_key
        intro kv2 h2 heq
        exact getShadowMap_values_safe { styles := styles, currentMode := mode } hsafe kv2 h2
    · split at hmD
      · simp only [List.mem_cons, List.not_mem_nil, or_false] at hmD
        rw [hmD]
        exact hplainL _ (by decide)
      · simp at hmD
  · split at hmE
    · simp only [List.mem_cons, List.not_mem_nil, or_false] at hmE
      rw [hmE]
      exact hplainL _ (by decide)
    · simp at hmE

theorem importFold_genDecls_color (styles : ThemeStyles) (mode : Mode) (ver : String)
    (k : String) (hk : k ∈ themeColorKeys)
    (hcolors : ∀ k2 ∈ themeColorKeys,
      ((jsGet (styles.get mode) k2).bind (fun v => parseColor v)).isSome = true) :
    jsGet (importFold (genDecls styles mode (fun c => colorFormatter c .hex ver))) k =
      some (colorFormatter (jsGetStr (styles.get mode) k) .hex ver) := by
  have hc := hcolors k hk
  cases hg : jsGet (styles.get mode) k with
  | none => rw [hg] at hc; simp at hc
  | some v0 =>
      rw [hg] at hc
      simp only [Option.some_bind] at hc
      cases hp : parseColor v0 with
      | none => rw [hp] at hc; simp at hc
      | some col =>
          have hval : jsGetStr (styles.get mode) k = v0 := by
            unfold jsGetStr
            rw [hg]
            rfl
          have hemit : colorFormatter (jsGetStr (styles.get mode) k) .hex ver =
              formatHex col := by
            rw [hval]
            exact colorFormatter_hex_of_parse v0 col ver hp
          have hmem : (k, formatHex col) ∈
              genDecls styles mode (fun c => colorFormatter c .hex ver) := by
            have hmem0 := genDecls_mem_color styles mode
              (fun c => colorFormatter c .hex ver) k hk
            rw [show (fun c => colorFormatter c .hex ver) (jsGetStr (styles.get mode) k) =
              formatHex col from hemit] at hmem0
            exact hmem0
          have hvars : variableNames.contains k = true ∧
              nonColorVariables.contains k = false :=
            (show ∀ k2 ∈ themeColorKeys, variableNames.contains k2 = true ∧
              nonColorVariables.contains k2 = false by decide) k hk
          have hlook := importFold_lookup _ k (formatHex col) hmem
            (genDecls_keys_nodup styles mode _) (genDecls_keys_keyOk styles mode _)
            (formatHex_valueOk col) hvars.1 hvars.2
          rw [hlook, roundtrip_hex col, hemit]

set_option maxHeartbeats 1000000 in
/-- C7 (amended): for every theme styles object whose 32 color tokens are
present and parseable in both modes and whose remaining token values are
free of the CSS structural characters `;`, `\x7b`, `\x7d` (so that the
generated stylesheet scans back into the same declarations), feeding the
stylesheet generated with `colorFormat = "hex"` into `parseCssInput`
reproduces, for every color token, exactly the emitted hex value
`colorFormatter(original, "hex", version)` in the respective mode's
partial result.  (The original claim, with no proviso and with the raw
original value as the round-trip target, is refuted by
`claim_C7_counterexample`.) -/
theorem claim_C7 (styles : ThemeStyles) (ver : String) (out : String)
    (hok : generateThemeCode styles.toGenState .hex ver = .ok out)
    (hcolors : ∀ (m : Mode), ∀ k ∈ themeColorKeys,
      ((jsGet (styles.get m) k).bind (fun v => parseColor v)).isSome = true)
    (hsafe : ∀ (m : Mode), ∀ kv ∈ styles.get m, kv.1 ∉ themeColorKeys → CssSafe kv.2) :
    ∀ k ∈ themeColorKeys,
      jsGet (parseCssInput out).1 k =
        some (colorFormatter (jsGetStr (styles.get .light) k) .hex ver) ∧
      jsGet (parseCssInput out).2 k =
        some (colorFormatter (jsGetStr (styles.get .dark) k) .hex ver) := by
  have hvsL := genDecls_values_safe_hex styles .light ver (hcolors .light) (hsafe .light)
    (hsafe .light)
  have hvsD := genDecls_values_safe_hex styles .dark ver (hcolors .dark) (hsafe .dark)
    (hsafe .light)
  have hmain := parseCssInput_generateThemeCode styles .hex ver out hok hvsL hvsD
  intro k hk
  rw [hmain.1, hmain.2]
  exact ⟨importFold_genDecls_color styles .light ver k hk (hcolors .light),
    importFold_genDecls_color styles .dark ver k hk (hcolors .dark)⟩

/-- C7 (counterexample): the unamended claim says the importer reproduces
the original value of every color token of the hex-generated stylesheet.
On the state whose light `background` is the bare triplet `240 10% 3.9%`,
`colorFormatter(... , "hex")` passes the unparseable triplet through
verbatim, but the importer wraps the digit-leading value in `hsl(...)`
before converting, storing `#09090b` ≠ `240 10% 3.9%`. -/
theorem claim_C7_counterexample :
    ∃ out : String,
      generateThemeCode (ThemeStyles.toGenState ⟨[("background", "240 10% 3.9%")], []⟩)
        .hex "3" = .ok out ∧
      jsGet (parseCssInput out).1 "background" = some "#09090b" ∧
      colorFormatter "240 10% 3.9%" .hex "3" = "240 10% 3.9%" ∧
      ("#09090b" : String) ≠ "240 10% 3.9%" := by
  have hvl : ∀ kv ∈ genDecls ⟨[("background", "240 10% 3.9%")], []⟩ .light
      (fun c => colorFormatter c .hex "3"), CssSafe kv.2 := by
    with_unfolding_all decide
  have hvd : ∀ kv ∈ genDecls ⟨[("background", "240 10% 3.9%")], []⟩ .dark
      (fun c => colorFormatter c .hex "3"), CssSafe kv.2 := by
    with_unfolding_all decide
  obtain ⟨out, hok⟩ : ∃ out, generateThemeCode
      (ThemeStyles.toGenState ⟨[("background", "240 10% 3.9%")], []⟩) .hex "3" = .ok out :=
    ⟨_, rfl⟩
  have hmain := parseCssInput_generateThemeCode ⟨[("background", "240 10% 3.9%")], []⟩
    .hex "3" out hok hvl hvd
  have hfc : colorFormatter "240 10% 3.9%" ColorFormat.hex "3" = "240 10% 3.9%" := by
    with_unfolding_all decide
  have hmem : ("background", "240 10% 3.9%") ∈
      genDecls ⟨[("background", "240 10% 3.9%")], []⟩ .light
        (fun c => colorFormatter c .hex "3") := by
    have hmem0 := genDecls_mem_color ⟨[("background", "240 10% 3.9%")], []⟩ .light
      (fun c => colorFormatter c .hex "3") "background" (by decide)
    rw [show (fun c => colorFormatter c ColorFormat.hex "3")
      (jsGetStr ((⟨[("background", "240 10% 3.9%")], []⟩ : ThemeStyles).get .light)
        "background") = "240 10% 3.9%" from hfc] at hmem0
    exact hmem0
  have hlook := importFold_lookup _ "background" "240 10% 3.9%" hmem
    (genDecls_keys_nodup _ _ _) (genDecls_keys_keyOk _ _ _)
    (by with_unfolding_all decide) (by decide) (by decide)
  have hfinal : colorFormatter (processColorValue "240 10% 3.9%") ColorFormat.hex =
      "#09090b" := by
    with_unfolding_all decide
  rw [hfinal] at hlook
  refine ⟨out, hok, ?_, hfc, by decide⟩
  rw [hmain.1]
  exact hlook

set_option maxRecDepth 100000 in
set_option maxHeartbeats 4000000 in
/-- C7 (witness): the amended round-trip theorem applied to the default
theme styles at the `background` token. -/
theorem claim_C7_witness :
    ∃ out : String,
      generateThemeCode (ThemeStyles.toGenState defaultThemeState.styles) .hex "3" =
        .ok out ∧
      jsGet (parseCssInput out).1 "background" =
        some (colorFormatter (jsGetStr (defaultThemeState.styles.get .light) "background")
          .hex "3") := by
  obtain ⟨out, hok⟩ : ∃ out, generateThemeCode
      (ThemeStyles.toGenState defaultThemeState.styles) .hex "3" = .ok out := ⟨_, rfl⟩
  refine ⟨out, hok, ?_⟩
  exact (claim_C7 defaultThemeState.styles "3" out hok
    (by intro m; cases m <;> with_unfolding_all decide)
    (by intro m; cases m <;> with_unfolding_all decide)
    "background" (by decide)).1

end Tweakcn

